import Mathlib

/-!
# Paparazzi: the request-to-render pipeline of one worker

A shallow embedding of `paparazzi/src/paparazzi.cpp` (tangram-es), followed by
theorems that settle the claims C1 .. C10 of the specification.

Modelling conventions

* `std::string` is a Lean `String`; `int`, `uint32_t` are `ℤ`/`ℕ` with the
  range checks the library performs written out (`stoi`, `operator>>`).
* `float` and `double` values are exact rationals: rounding, infinities and
  NaN are outside the embedding.  Conversion to `int` truncates toward zero.
* External collaborators (the map engine's pump, the wall clock, MD5, libm,
  glm) are the fields of `Env`.  Calls made on the engine and on the GL context
  are appended to a trace kept in the state.
* `Paparazzi::update` is a loop whose exit depends on the engine and on the
  clock, so it takes fuel and returns `none` when the fuel is exhausted.
-/

namespace Tangram

/-! ## Constants of `paparazzi.cpp` -/

/-- Anti-alias scale, `#define AA_SCALE 2.0`. -/
def AA_SCALE : ℚ := 2

/-- Pump deadline in seconds, `#define MAX_WAITING_TIME 100.0`. -/
def MAX_WAITING_TIME : ℚ := 100

/-- The value of the `double` constant `M_PI`, which is the dyadic rational
`884279719003555 / 2^48`. -/
def M_PI : ℚ := 884279719003555 / 281474976710656

/-- Header `Access-Control-Allow-Origin: *`. -/
def CORS : String × String := ("Access-Control-Allow-Origin", "*")

/-- Header `Content-type: image/png`. -/
def PNG_MIME : String × String := ("Content-type", "image/png")

/-- Header `Content-type: text/plain;charset=utf-8`. -/
def TXT_MIME : String × String := ("Content-type", "text/plain;charset=utf-8")

/-- Largest value of a C++ `int`. -/
def INT_MAX : ℤ := 2147483647

/-- Smallest value of a C++ `int`. -/
def INT_MIN : ℤ := -2147483648

/-! ## The standard library functions the worker calls -/

/-- The C locale `isspace`. -/
def isspace (c : Char) : Bool :=
  c = ' ' || c = '\t' || c = '\n' || c = '\r' || c.toNat = 11 || c.toNat = 12

/-- Value of a string of decimal digits, most significant first. -/
def decimal (ds : List Char) : ℕ :=
  ds.foldl (fun acc c => 10 * acc + (c.toNat - 48)) 0

/-- Strips the optional sign that `strtol` and `strtod` accept; the flag tells
whether it was a minus. -/
def takeSign : List Char → Bool × List Char
  | '-' :: cs => (true, cs)
  | '+' :: cs => (false, cs)
  | cs => (false, cs)

/-- The function `std::stoi(str)` (base 10): leading white space is skipped, an optional
sign and the longest run of digits are converted and whatever follows is
ignored.  `std::invalid_argument` when there is no digit and
`std::out_of_range` when the value does not fit an `int`; both have
`what() = "stoi"`. -/
def stoi (str : String) : Except String ℤ :=
  let (neg, cs) := takeSign (str.toList.dropWhile isspace)
  let ds := cs.takeWhile Char.isDigit
  if ds = [] then Except.error "stoi"
  else
    let v : ℤ := if neg then -(decimal ds : ℤ) else (decimal ds : ℤ)
    if INT_MIN ≤ v ∧ v ≤ INT_MAX then Except.ok v else Except.error "stoi"

/-- The exponent part `e[sign]digits` of a decimal floating literal; it is
taken only when at least one digit follows, otherwise the exponent is 0. -/
def takeExponent : List Char → ℤ
  | c :: cs =>
    if c = 'e' ∨ c = 'E' then
      let (neg, r) := takeSign cs
      let ds := r.takeWhile Char.isDigit
      if ds = [] then 0 else if neg then -(decimal ds : ℤ) else (decimal ds : ℤ)
    else 0
  | [] => 0

/-- The number `m · 10^e`. -/
def scale10 (m : ℤ) (e : ℤ) : ℚ :=
  if 0 ≤ e then (m : ℚ) * (10 : ℚ) ^ e.toNat else (m : ℚ) / (10 : ℚ) ^ (-e).toNat

/-- The decimal form accepted by `strtod`: white space, an optional sign,
digits with an optional radix point (at least one digit in all) and an
optional exponent; the rest of the string is ignored.  `none` when no
conversion can be performed.  The hexadecimal, `inf` and `nan` forms and
range errors are not modelled. -/
def strtod (str : String) : Option ℚ :=
  let (neg, cs) := takeSign (str.toList.dropWhile isspace)
  let ip := cs.takeWhile Char.isDigit
  let r1 := cs.dropWhile Char.isDigit
  let fp := match r1 with
    | '.' :: r => r.takeWhile Char.isDigit
    | _ => []
  let r2 := match r1 with
    | '.' :: r => r.dropWhile Char.isDigit
    | _ => r1
  if ip = [] ∧ fp = [] then none
  else
    let m : ℤ := (decimal (ip ++ fp) : ℤ)
    let v := scale10 m (takeExponent r2 - fp.length)
    some (if neg then -v else v)

/-- What follows the white space and the sign of a value starts no floating
literal: neither a digit, nor a point before a digit, nor one of the forms
`inf` and `nan` (in any case) that `strtod` converts as well. -/
def noFloatStart : List Char → Bool
  | [] => true
  | c :: rest =>
    !c.isDigit &&
    !(c = '.' && (match rest with
      | d :: _ => d.isDigit
      | [] => false)) &&
    !(((c :: rest).take 3).map Char.toLower = [ 'i', 'n', 'f']) &&
    !(((c :: rest).take 3).map Char.toLower = [ 'n', 'a', 'n'])

/-- The value does not start with a number: `strtod` performs no conversion on
it and `std::stof`, `std::stod` throw `std::invalid_argument`. -/
def NoFloat (v : String) : Prop :=
  noFloatStart (takeSign (v.toList.dropWhile isspace)).2 = true

/-- The function `std::stof(str)`; `std::invalid_argument` has `what() = "stof"`. -/
def stof (str : String) : Except String ℚ :=
  match strtod str with
  | some v => Except.ok v
  | none => Except.error "stof"

/-- The function `std::stod(str)`; `std::invalid_argument` has `what() = "stod"`. -/
def stod (str : String) : Except String ℚ :=
  match strtod str with
  | some v => Except.ok v
  | none => Except.error "stod"

/-- The function `fmax` on finite values. -/
def fmax (a b : ℚ) : ℚ := if a < b then b else a

/-- Conversion of a floating value to `int`: truncation toward zero. -/
def toInt (q : ℚ) : ℤ := if 0 ≤ q then ⌊q⌋ else ⌈q⌉

/-- Formatted extraction `istringstream(s) >> int` on a capture of the tile
pattern, which holds digits only: an empty capture fails and leaves 0, a value
that does not fit is replaced by `INT_MAX`. -/
def extractInt (ds : List Char) : ℤ :=
  if ds = [] then 0 else min (decimal ds : ℤ) INT_MAX

/-- Match of `\/(\d*)\/(\d*)\/(\d*)\.png` starting at the head of the input.  Every
`\d*` is followed by a literal that is not a digit, so only the longest run of
digits can lead to a match. -/
def matchTileAt (cs : List Char) : Option (List Char × List Char × List Char) :=
  match cs with
  | '/' :: r1 =>
    match r1.dropWhile Char.isDigit with
    | '/' :: r2 =>
      match r2.dropWhile Char.isDigit with
      | '/' :: r3 =>
        match r3.dropWhile Char.isDigit with
        | '.' :: 'p' :: 'n' :: 'g' :: _ =>
          some (r1.takeWhile Char.isDigit, r2.takeWhile Char.isDigit,
            r3.takeWhile Char.isDigit)
        | _ => none
      | _ => none
    | _ => none
  | _ => none

/-- The call `std::regex_search(path, match, re)` for the tile pattern: the leftmost
match anywhere in the path, with its three captures. -/
def regex_search : List Char → Option (List Char × List Char × List Char)
  | [] => none
  | c :: cs =>
    match matchTileAt (c :: cs) with
    | some m => some m
    | none => regex_search cs

/-! ## Collaborators -/

/-- The external collaborators of one worker.

* `pump i` is the outcome of the `i`-th call `m_map->update(10.)` made by the
  worker: whether the engine reports that it is done, and the milliseconds of
  wall-clock time that pass between the clock reading before the call and the
  clock reading after it.
* `md5` is `MD5::operator()` of hash-library (hex digest of a string).
* `atan`, `sinh` are the libm functions, `radians` is `glm::radians`.
* `glInit`, `glMakeCurrent` are the results of `HeadlessContext::init` and
  `HeadlessContext::makeCurrent` at start-up. -/
structure Env where
  pump : ℕ → Bool × ℕ
  md5 : String → String
  atan : ℚ → ℚ
  sinh : ℚ → ℚ
  radians : ℚ → ℚ
  glInit : Bool
  glMakeCurrent : Bool

/-- A call made on the map engine `m_map` or on the GL context `m_glContext`. -/
inductive Call where
  | loadSceneAsync (path : String)
  | setupGL
  | setPixelScale (s : ℚ)
  | resize (w h : ℤ)
  | setPosition (lon lat : ℚ)
  | setZoom (z : ℚ)
  | setTilt (rad : ℚ)
  | setRotation (rad : ℚ)
  | update (dt : ℚ)
  | render
  | glInit
  | glResize (w h : ℤ)
  | glMakeCurrent
  deriving DecidableEq

/-! ## The worker state -/

/-- The members of `class Paparazzi`, together with what the embedding has to
remember of the world: the pixel scale held by the engine, the trace of calls
(oldest first), the number of pump calls made so far, the wall clock in
milliseconds and the files written (latest first). -/
structure Paparazzi where
  m_scene : String
  m_lat : ℚ
  m_lon : ℚ
  m_zoom : ℚ
  m_rotation : ℚ
  m_tilt : ℚ
  m_width : ℤ
  m_height : ℤ
  pixelScale : ℚ
  calls : List Call
  pumps : ℕ
  clock : ℕ
  files : List (String × String)
  deriving DecidableEq

namespace Paparazzi

/-- Appends one call to the trace. -/
def call (st : Paparazzi) (c : Call) : Paparazzi :=
  { st with calls := st.calls ++ [c] }

/-- Modelled from the spec: `Tangram::Map::getPixelScale`, whose definition is
not among the sources; section 4.3 compares the new scale with
`engine.pixel_scale`, the value last pushed with `set_pixel_scale`. -/
def getPixelScale (st : Paparazzi) : ℚ := st.pixelScale

/-- Modelled from the spec: `Tangram::Map::setPixelScale`, whose definition is
not among the sources; the engine records the scale and the call is traced. -/
def mapSetPixelScale (st : Paparazzi) (s : ℚ) : Paparazzi :=
  { st.call (Call.setPixelScale s) with pixelScale := s }

/-- The function `getTime()`: the wall clock in seconds, read with a resolution of one
millisecond. -/
def getTime (st : Paparazzi) : ℚ := (st.clock : ℚ) * (1 / 1000)

/-- One call `m_map->update(10.)`: the engine answers as the environment says
and the clock moves on. -/
def pump (E : Env) (st : Paparazzi) : Bool × Paparazzi :=
  ((E.pump st.pumps).1,
    { st with calls := st.calls ++ [Call.update 10], pumps := st.pumps + 1,
              clock := st.clock + (E.pump st.pumps).2 })

/-- The loop of `Paparazzi::update`,
`while (delta < MAX_WAITING_TIME && !bFinish)`, with `startTime`, `delta` and
`bFinish` as loop variables. -/
def updateLoop (E : Env) (startTime : ℚ) : ℕ → Paparazzi → ℚ → Bool → Option Paparazzi
  | fuel, st, delta, bFinish =>
    if delta < MAX_WAITING_TIME ∧ bFinish = false then
      match fuel with
      | 0 => none
      | fuel + 1 =>
        updateLoop E startTime fuel (pump E st).2 (getTime (pump E st).2 - startTime)
          (pump E st).1
    else some st

/-- The method `Paparazzi::update`. -/
def update (E : Env) (fuel : ℕ) (st : Paparazzi) : Option Paparazzi :=
  updateLoop E (getTime st) fuel st 0 false

/-- The method `Paparazzi::setSize`. -/
def setSize (E : Env) (fuel : ℕ) (st : Paparazzi) (_width _height : ℤ) (_density : ℚ) :
    Option Paparazzi :=
  if _density * _width = st.m_width ∧ _density * _height = st.m_height ∧
      _density * AA_SCALE = st.getPixelScale then some st
  else
    let st1 := { st with m_width := toInt (_width * _density),
                         m_height := toInt (_height * _density) }
    let st2 := if _density * AA_SCALE ≠ st1.getPixelScale
      then st1.mapSetPixelScale (_density * AA_SCALE) else st1
    let st3 := st2.call (Call.resize (toInt (st2.m_width * AA_SCALE))
      (toInt (st2.m_height * AA_SCALE)))
    match update E fuel st3 with
    | none => none
    | some st4 => some (st4.call (Call.glResize st4.m_width st4.m_height))

/-- The method `Paparazzi::setZoom`. -/
def setZoom (E : Env) (fuel : ℕ) (st : Paparazzi) (_zoom : ℚ) : Option Paparazzi :=
  if _zoom = st.m_zoom then some st
  else update E fuel ({ st with m_zoom := _zoom }.call (Call.setZoom _zoom))

/-- The method `Paparazzi::setTilt`. -/
def setTilt (E : Env) (fuel : ℕ) (st : Paparazzi) (_deg : ℚ) : Option Paparazzi :=
  if _deg = st.m_tilt then some st
  else update E fuel ({ st with m_tilt := _deg }.call (Call.setTilt (E.radians _deg)))

/-- The method `Paparazzi::setRotation`. -/
def setRotation (E : Env) (fuel : ℕ) (st : Paparazzi) (_deg : ℚ) : Option Paparazzi :=
  if _deg = st.m_rotation then some st
  else update E fuel
    ({ st with m_rotation := _deg }.call (Call.setRotation (E.radians _deg)))

/-- The method `Paparazzi::setPosition`. -/
def setPosition (E : Env) (fuel : ℕ) (st : Paparazzi) (_lon _lat : ℚ) : Option Paparazzi :=
  if _lon = st.m_lon ∧ _lat = st.m_lat then some st
  else update E fuel
    ({ st with m_lon := _lon, m_lat := _lat }.call (Call.setPosition _lon _lat))

/-- The method `Paparazzi::setScene`. -/
def setScene (E : Env) (fuel : ℕ) (st : Paparazzi) (_url : String) : Option Paparazzi :=
  if _url = st.m_scene then some st
  else update E fuel ({ st with m_scene := _url }.call (Call.loadSceneAsync _url))

/-- The bytes `out << s.c_str()` writes: those before the first zero byte. -/
def c_str (s : String) : String :=
  String.mk (s.toList.takeWhile (fun c => c ≠ Char.ofNat 0))

/-- The method `Paparazzi::setSceneContent`; the stream is taken to open and to
write without error. -/
def setSceneContent (E : Env) (fuel : ℕ) (st : Paparazzi) (_yaml_content : String) :
    Option Paparazzi :=
  let md5_scene := E.md5 _yaml_content
  if md5_scene = st.m_scene then some st
  else
    let name := "cache/" ++ md5_scene ++ ".yaml"
    let st1 := { st with m_scene := md5_scene,
                         files := (name, c_str _yaml_content) :: st.files }
    update E fuel (st1.call (Call.loadSceneAsync name))

/-! ## Requests, responses and the request handler -/

end Paparazzi

/-- The parsed request `http_request_t`: `query` is the multimap from a key to
the list of its values. -/
structure http_request_t where
  path : String
  query : List (String × List String)
  body : String

/-- The response `http_response_t(code, message, body, headers, "HTTP/1.1")`. -/
structure http_response_t where
  code : ℕ
  message : String
  body : String
  headers : List (String × String)
  deriving DecidableEq

/-- The result `worker_t::result_t` of one job. -/
structure result_t where
  intermediate : Bool
  messages : List http_response_t
  heart_beat : String
  deriving DecidableEq

/-- The first value of a query key, for the test
`itr != query.cend() && itr->second.size() != 0` followed by `itr->second.front()`;
`none` when the key is missing or has no value. -/
def front (query : List (String × List String)) (key : String) : Option String :=
  match query.lookup key with
  | some (v :: _) => some v
  | _ => none

/-- How a stretch of the `try` block of `Paparazzi::work` ends: normally, with
an exception (the state is the one reached when it was thrown), or never,
because a pump loop ran out of fuel. -/
inductive Outcome (α : Type) where
  | ok (st : Paparazzi) (a : α)
  | thrown (st : Paparazzi) (what : String)
  | starved
  deriving DecidableEq

namespace Outcome

/-- Continues with the result of a setter. -/
def andThen {α : Type} (o : Option Paparazzi) (k : Paparazzi → Outcome α) : Outcome α :=
  match o with
  | some st => k st
  | none => Outcome.starved

/-- Continues after a stretch that ended normally; an exception or starvation
ends the whole. -/
def bind {α β : Type} (o : Outcome α) (k : Paparazzi → α → Outcome β) : Outcome β :=
  match o with
  | Outcome.ok st a => k st a
  | Outcome.thrown st what => Outcome.thrown st what
  | Outcome.starved => Outcome.starved

/-- Continues with a parsed value, or throws what the parser throws. -/
def attempt {α β : Type} (st : Paparazzi) (e : Except String α) (k : α → Outcome β) :
    Outcome β :=
  match e with
  | Except.ok a => k a
  | Except.error what => Outcome.thrown st what

end Outcome

namespace Paparazzi

/-- The value `radians * 180 / M_PI` of `radians_to_degrees`. -/
def radians_to_degrees (radians : ℚ) : ℚ := radians * 180 / M_PI

/-- Lines 237-255 of `work`: the scene.  The value returned is
`result.heart_beat`. -/
def sceneStage (E : Env) (fuel : ℕ) (st : Paparazzi) (request : http_request_t) :
    Outcome String :=
  match front request.query "scene" with
  | none =>
    if request.body = "" then Outcome.thrown st "scene is required punk"
    else Outcome.andThen (setSceneContent E fuel st request.body)
      (fun st1 => Outcome.ok st1 (toString request.body.length))
  | some url => Outcome.andThen (setScene E fuel st url) (fun st1 => Outcome.ok st1 url)

/-- Lines 257-280 of `work`: the flag `size_and_pos`. -/
def size_and_pos (request : http_request_t) : Bool :=
  (front request.query "width").isSome && (front request.query "height").isSome &&
  (front request.query "lat").isSome && (front request.query "lon").isSome &&
  (front request.query "zoom").isSome

/-- Lines 258 and 267-269 of `work`: `pixel_density`. -/
def pixel_density (request : http_request_t) : Except String ℚ :=
  match front request.query "density" with
  | some d =>
    match stof d with
    | Except.ok v => Except.ok (fmax 1 v)
    | Except.error what => Except.error what
  | none => Except.ok 1

/-- Lines 283-290 of `work`: the explicit view.  The order in which the two
arguments of one call are parsed is not fixed by the language; both parsers
throw the same `what()` and nothing happens in between. -/
def explicitView (E : Env) (fuel : ℕ) (st : Paparazzi) (request : http_request_t)
    (density : ℚ) : Outcome Unit :=
  Outcome.attempt st (stoi ((front request.query "width").getD "")) fun width =>
  Outcome.attempt st (stoi ((front request.query "height").getD "")) fun height =>
  Outcome.andThen (setSize E fuel st width height density) fun st1 =>
  Outcome.attempt st1 (stod ((front request.query "lon").getD "")) fun lon =>
  Outcome.attempt st1 (stod ((front request.query "lat").getD "")) fun lat =>
  Outcome.andThen (setPosition E fuel st1 lon lat) fun st2 =>
  Outcome.attempt st2 (stof ((front request.query "zoom").getD "")) fun zoom =>
  Outcome.andThen (setZoom E fuel st2 zoom) fun st3 =>
  Outcome.ok st3 ()

/-- Lines 292-322 of `work`: the tile view. -/
def tileView (E : Env) (fuel : ℕ) (st : Paparazzi) (request : http_request_t)
    (density : ℚ) : Outcome Unit :=
  match regex_search request.path.toList with
  | some (m1, m2, m3) =>
    Outcome.andThen (setSize E fuel st 256 256 density) fun st1 =>
    let z : ℕ := (extractInt m1).toNat
    Outcome.andThen (setZoom E fuel st1 z) fun st2 =>
    let x : ℕ := (extractInt m2).toNat
    let y : ℕ := (extractInt m3).toNat
    let n : ℚ := 2 ^ z
    let lng_deg : ℚ := (x + 1 / 2) / n * 360 - 180
    let lat_rad : ℚ := E.atan (E.sinh (M_PI * (1 - 2 * (y + 1 / 2) / n)))
    let lat_deg : ℚ := radians_to_degrees lat_rad
    Outcome.andThen (setPosition E fuel st2 lng_deg lat_deg) fun st3 =>
    Outcome.ok st3 ()
  | none => Outcome.thrown st "not enought data to construct image"

/-- Lines 326-334 and 336-344 of `work`: the value of an optional angle, 0
when the key is missing or has no value. -/
def angle (request : http_request_t) (key : String) : Except String ℚ :=
  match front request.query key with
  | some v => stof v
  | none => Except.ok 0

/-- Lines 324-344 of `work`: tilt and rotation. -/
def tiltRotation (E : Env) (fuel : ℕ) (st : Paparazzi) (request : http_request_t) :
    Outcome Unit :=
  Outcome.attempt st (angle request "tilt") fun tilt =>
  Outcome.andThen (setTilt E fuel st tilt) fun st1 =>
  Outcome.attempt st1 (angle request "rotation") fun rotation =>
  Outcome.andThen (setRotation E fuel st1 rotation) fun st2 =>
  Outcome.ok st2 ()

/-- Lines 346-362 of `work`: the final pump loop and the frame.  The pixels are
never read back, the image stays empty. -/
def renderStage (E : Env) (fuel : ℕ) (st : Paparazzi) : Outcome String :=
  Outcome.andThen (update E fuel st) fun st1 =>
  Outcome.ok (st1.call Call.render) ""

/-- Lines 283-322 of `work`: the view, explicit when `size_and_pos`, otherwise
from the tile path. -/
def viewStage (E : Env) (fuel : ℕ) (st : Paparazzi) (request : http_request_t)
    (density : ℚ) : Outcome Unit :=
  if size_and_pos request then explicitView E fuel st request density
  else tileView E fuel st request density

/-- Lines 257-364 of `work`: what follows the scene; the value is the image. -/
def afterScene (E : Env) (fuel : ℕ) (st : Paparazzi) (request : http_request_t) :
    Outcome String :=
  Outcome.attempt st (pixel_density request) fun density =>
  (viewStage E fuel st request density).bind fun st2 _ =>
  (tiltRotation E fuel st2 request).bind fun st3 _ =>
  renderStage E fuel st3

/-- The `try` block of `Paparazzi::work` after the health check, with the
value of `result.heart_beat` when it is left. -/
def tryBlock (E : Env) (fuel : ℕ) (st : Paparazzi) (request : http_request_t) :
    Outcome String × String :=
  match sceneStage E fuel st request with
  | Outcome.starved => (Outcome.starved, "")
  | Outcome.thrown st1 what => (Outcome.thrown st1 what, "")
  | Outcome.ok st1 heart_beat => (afterScene E fuel st1 request, heart_beat)

/-- The method `Paparazzi::work`: the new state and the result sent back, or `none` when
a pump loop ran out of fuel. -/
def work (E : Env) (fuel : ℕ) (st : Paparazzi) (request : http_request_t) :
    Option (Paparazzi × result_t) :=
  if request.path = "/check" then
    some (st, ⟨false, [⟨200, "OK", "OK", [CORS, TXT_MIME]⟩], ""⟩)
  else
    match tryBlock E fuel st request with
    | (Outcome.starved, _) => none
    | (Outcome.ok st1 image, heart_beat) =>
      some (st1, ⟨false, [⟨200, "OK", image, [CORS, PNG_MIME]⟩], heart_beat⟩)
    | (Outcome.thrown st1 what, heart_beat) =>
      some (st1, ⟨false, [⟨400, "Bad Request", what, [CORS]⟩], heart_beat⟩)

/-- The constructor `Paparazzi::Paparazzi()`; an exception thrown here ends the
process.  The platform, the URL client and the debug flag it sets up are not
part of the state. -/
def new (E : Env) (fuel : ℕ) : Outcome Unit :=
  let st0 : Paparazzi :=
    { m_scene := "scene.yaml", m_lat := 0, m_lon := 0, m_zoom := 0, m_rotation := 0,
      m_tilt := 0, m_width := 100, m_height := 100, pixelScale := 1,
      calls := [Call.glInit], pumps := 0, clock := 0, files := [] }
  if E.glInit = false then Outcome.thrown st0 "Could not initialize GL context"
  else
    let st1 := st0.call (Call.glResize st0.m_width st0.m_height)
    if E.glMakeCurrent = false then
      Outcome.thrown (st1.call Call.glMakeCurrent) "Could not activate GL context"
    else
      let st2 := (st1.call Call.glMakeCurrent).call (Call.loadSceneAsync st1.m_scene)
      let st3 := (st2.call Call.setupGL).mapSetPixelScale AA_SCALE
      let st4 := st3.call (Call.resize (toInt (st3.m_width * AA_SCALE))
        (toInt (st3.m_height * AA_SCALE)))
      Outcome.andThen (update E fuel st4) fun st5 =>
      Outcome.andThen (setSize E fuel st5 st5.m_width st5.m_height 1) fun st6 =>
      Outcome.ok st6 ()

/-! ## Vocabulary of the statements -/

/-- The state after `k` successive pump calls. -/
def pumpN (E : Env) : ℕ → Paparazzi → Paparazzi
  | 0, st => st
  | k + 1, st => (pump E (pumpN E k st)).2

/-- The members of the class and the engine's pixel scale and the files, with
the trace, the pump counter and the clock blanked out. -/
def core (st : Paparazzi) : Paparazzi :=
  { st with calls := [], pumps := 0, clock := 0 }

/-- The calls made since an earlier state. -/
def since (st st' : Paparazzi) : List Call := st'.calls.drop st.calls.length

/-- The clock advances: every pump call takes at least one millisecond. -/
def Advancing (E : Env) : Prop := ∀ i, 1 ≤ (E.pump i).2

/-- Fuel that suffices for any pump loop under an advancing clock: one
iteration per millisecond of `MAX_WAITING_TIME`. -/
def enoughFuel : ℕ := 100000

end Paparazzi

/-- The view-mutating engine calls: scene, pixel scale, size, position, zoom,
tilt and rotation. -/
def Call.isMutation : Call → Bool
  | Call.loadSceneAsync _ => true
  | Call.setPixelScale _ => true
  | Call.resize _ _ => true
  | Call.setPosition _ _ => true
  | Call.setZoom _ => true
  | Call.setTilt _ => true
  | Call.setRotation _ => true
  | _ => false

/-- A trace without its pump calls. -/
def withoutPumps (cs : List Call) : List Call := cs.filter (fun c => c ≠ Call.update 10)

/-- The view-mutating calls of a trace. -/
def mutations (cs : List Call) : List Call := cs.filter Call.isMutation

/-- Position of a view-mutating call in the order the handler follows; for an
explicit view the position comes before the zoom, for a tile after it. -/
def Call.rank (explicit : Bool) : Call → ℕ
  | Call.loadSceneAsync _ => 0
  | Call.setPixelScale _ => 1
  | Call.resize _ _ => 2
  | Call.setPosition _ _ => if explicit then 3 else 4
  | Call.setZoom _ => if explicit then 4 else 3
  | Call.setTilt _ => 5
  | Call.setRotation _ => 6
  | _ => 7

/-- The order of section 4.3 of the specification: scene, size, position, zoom,
tilt, rotation. -/
def Call.specRank : Call → ℕ := Call.rank true

/-- The longitude of the centre of the tile column `x` at zoom `z`, in degrees:
`(x + 0.5) / 2^z · 360 − 180`. -/
def tileLng (z x : ℕ) : ℚ := (x + 1 / 2) / 2 ^ z * 360 - 180

/-- The latitude of the centre of the tile row `y` at zoom `z`, in degrees:
`degrees(atan(sinh(π · (1 − 2 · (y + 0.5) / 2^z))))`, with the `atan` and `sinh` of
the environment and the `double` constant `M_PI` for `π`. -/
def tileLat (E : Env) (z y : ℕ) : ℚ :=
  Paparazzi.radians_to_degrees (E.atan (E.sinh (M_PI * (1 - 2 * (y + 1 / 2) / 2 ^ z))))

/-- The status codes of the responses of a result. -/
def result_t.codes (res : result_t) : List ℕ := res.messages.map http_response_t.code

/-- A property of the state in which a stretch ends, whether normally or with
an exception. -/
def Outcome.Holds {α : Type} (P : Paparazzi → Prop) : Outcome α → Prop
  | Outcome.ok st _ => P st
  | Outcome.thrown st _ => P st
  | Outcome.starved => True

/-- The stretch ends: no pump loop ran out of fuel. -/
def Outcome.Live {α : Type} : Outcome α → Prop
  | Outcome.starved => False
  | _ => True

/-- The stretch ends normally. -/
def Outcome.IsOk {α : Type} : Outcome α → Prop
  | Outcome.ok _ _ => True
  | _ => False

namespace Paparazzi

/-- The loop variable `delta` after `j` iterations of a loop entered in `st`. -/
def loopDelta (E : Env) (startTime : ℚ) (st : Paparazzi) (delta : ℚ) : ℕ → ℚ
  | 0 => delta
  | j + 1 => getTime (pumpN E (j + 1) st) - startTime

/-- The loop variable `bFinish` after `j` iterations of a loop entered in `st`. -/
def loopDone (E : Env) (st : Paparazzi) (bFinish : Bool) : ℕ → Bool
  | 0 => bFinish
  | j + 1 => (E.pump (st.pumps + j)).1

/-- The exit test of the loop after `j ≥ 1` pumps: the last pump reported done or
the time elapsed since entry has reached `MAX_WAITING_TIME`. -/
def stops (E : Env) (st : Paparazzi) (j : ℕ) : Prop :=
  (E.pump (st.pumps + j - 1)).1 = true ∨
    MAX_WAITING_TIME ≤ getTime (pumpN E j st) - getTime st

/-- The size, the pixel scale, the position and the zoom. -/
def viewOf (st : Paparazzi) : ℤ × ℤ × ℚ × ℚ × ℚ × ℚ :=
  (st.m_width, st.m_height, st.pixelScale, st.m_lon, st.m_lat, st.m_zoom)

/-- The scene id and the files written. -/
def sceneOf (st : Paparazzi) : String × List (String × String) := (st.m_scene, st.files)

/-- The trace `cs'` extends `cs` by calls among which there is no `render` and
whose view-mutating calls have strictly increasing ranks, all in `[lo, hi)`. -/
def Emits (explicit : Bool) (lo hi : ℕ) (cs cs' : List Call) : Prop :=
  ∃ d, cs' = cs ++ d ∧ Call.render ∉ d ∧
    (∀ c ∈ mutations d, lo ≤ c.rank explicit ∧ c.rank explicit < hi) ∧
    (mutations d).Pairwise (fun a b => a.rank explicit < b.rank explicit)

/-- The trace `cs'` extends `cs` by calls which, pump calls left out, are `ns`. -/
def Trace (cs cs' : List Call) (ns : List Call) : Prop :=
  ∃ d, cs' = cs ++ d ∧ withoutPumps d = ns

/-- How the part of the `try` block that follows the scene ends, seen on the
trace: an exception leaves view-mutating calls in order and no `render`; a
normal end is such a trace followed by one completed pump loop and `render`,
and the image is empty. -/
def Rendered (E : Env) (fuel : ℕ) (b : Bool) (lo : ℕ) (st : Paparazzi) :
    Outcome String → Prop
  | Outcome.starved => True
  | Outcome.thrown st' _ => Emits b lo 7 st.calls st'.calls ∧ sceneOf st' = sceneOf st
  | Outcome.ok st' image => image = "" ∧ ∃ st1 st2, Emits b lo 7 st.calls st1.calls ∧
      sceneOf st1 = sceneOf st ∧ update E fuel st1 = some st2 ∧ st' = st2.call Call.render

end Paparazzi

/-! ## Concrete collaborators and requests used in the closed statements -/

/-- A test double of the collaborators: the engine reports done at every pump
and a pump takes one millisecond; the digest, libm and glm are stand-ins. -/
def stubEnv : Env :=
  { pump := fun _ => (true, 1), md5 := fun s => "md5 of " ++ s, atan := fun q => q,
    sinh := fun q => q, radians := fun q => q, glInit := true, glMakeCurrent := true }

/-- A test double whose engine never reports done while the clock advances by
one second per pump. -/
def busyEnv : Env :=
  { stubEnv with pump := fun _ => (false, 1000) }

/-- The worker that the constructor leaves with the collaborators `stubEnv`. -/
def freshWorker : Paparazzi :=
  { m_scene := "scene.yaml", m_lat := 0, m_lon := 0, m_zoom := 0, m_rotation := 0,
    m_tilt := 0, m_width := 100, m_height := 100, pixelScale := 2,
    calls := [Call.glInit, Call.glResize 100 100, Call.glMakeCurrent,
      Call.loadSceneAsync "scene.yaml", Call.setupGL, Call.setPixelScale 2,
      Call.resize 200 200, Call.update 10],
    pumps := 1, clock := 1, files := [] }

/-- Scenario S3: `GET /2/1/1.png?scene=http://example/scene.yaml`. -/
def reqTile : http_request_t :=
  { path := "/2/1/1.png", query := [("scene", ["http://example/scene.yaml"])], body := "" }

/-- Scenario S4:
`GET /?scene=http://e/s.yaml&width=200&height=100&lat=40.7&lon=-74.0&zoom=12&tilt=30&rotation=45`. -/
def reqExplicit : http_request_t :=
  { path := "/",
    query := [("scene", ["http://e/s.yaml"]), ("width", ["200"]), ("height", ["100"]),
      ("lat", ["40.7"]), ("lon", ["-74.0"]), ("zoom", ["12"]), ("tilt", ["30"]),
      ("rotation", ["45"])],
    body := "" }

/-- An explicit view whose width is `12abc`:
`GET /?scene=http://e/s.yaml&width=12abc&height=100&lat=0&lon=0&zoom=2`. -/
def reqWidth12abc : http_request_t :=
  { path := "/",
    query := [("scene", ["http://e/s.yaml"]), ("width", ["12abc"]), ("height", ["100"]),
      ("lat", ["0"]), ("lon", ["0"]), ("zoom", ["2"])],
    body := "" }

/-- A tile path with a width that is no number and no other explicit-view
parameter: `GET /2/1/1.png?scene=http://example/scene.yaml&width=abc`. -/
def reqTileWidthAbc : http_request_t :=
  { path := "/2/1/1.png",
    query := [("scene", ["http://example/scene.yaml"]), ("width", ["abc"])], body := "" }

/-- A health check with a width that is no number: `GET /check?width=abc`. -/
def reqCheckWidthAbc : http_request_t :=
  { path := "/check", query := [("width", ["abc"])], body := "" }

/-- An explicit view whose width is no number:
`GET /?scene=http://e/s.yaml&width=abc&height=100&lat=0&lon=0&zoom=2`. -/
def reqWidthAbc : http_request_t :=
  { path := "/",
    query := [("scene", ["http://e/s.yaml"]), ("width", ["abc"]), ("height", ["100"]),
      ("lat", ["0"]), ("lon", ["0"]), ("zoom", ["2"])],
    body := "" }

/-- An explicit view with a fractional density and an odd width:
`GET /?scene=http://e/s.yaml&width=101&height=100&density=1.5&lat=0&lon=0&zoom=2`. -/
def reqFractional : http_request_t :=
  { path := "/",
    query := [("scene", ["http://e/s.yaml"]), ("width", ["101"]), ("height", ["100"]),
      ("density", ["1.5"]), ("lat", ["0"]), ("lon", ["0"]), ("zoom", ["2"])],
    body := "" }

/-- An inline scene body with a zero byte: the bytes `a`, `0`, `b`. -/
def nulBody : String := String.mk [ 'a', Char.ofNat 0, 'b']

/-- The tile request of scenario S3 with a tilt that is no number:
`GET /2/1/1.png?scene=http://example/scene.yaml&tilt=abc`. -/
def reqTiltAbc : http_request_t :=
  { path := "/2/1/1.png",
    query := [("scene", ["http://example/scene.yaml"]), ("tilt", ["abc"])], body := "" }

theorem toInt_intCast (n : ℤ) : toInt (n : ℚ) = n := by
  unfold toInt
  split <;> simp

theorem strtod_of_noFloat {v : String} (h : NoFloat v) : strtod v = none := by
  unfold NoFloat at h
  unfold strtod
  rcases hts : takeSign (v.toList.dropWhile isspace) with ⟨neg, cs⟩
  rw [hts] at h
  dsimp only at h ⊢
  cases cs with
  | nil => simp
  | cons c rest =>
    simp only [noFloatStart, Bool.and_eq_true, Bool.not_eq_true', decide_eq_false_iff_not,
      Bool.and_eq_false_imp, decide_eq_true_eq] at h
    obtain ⟨⟨⟨h1, h2⟩, -⟩, -⟩ := h
    have e1 : (c :: rest).takeWhile Char.isDigit = [] := by
      rw [List.takeWhile_cons, h1]; rfl
    have e2 : (c :: rest).dropWhile Char.isDigit = c :: rest := by
      rw [List.dropWhile_cons, h1]; rfl
    rw [e1, e2]
    have hfp : (match c :: rest with
        | '.' :: r => r.takeWhile Char.isDigit
        | _ => []) = [] := by
      split
      · rename_i r heq
        simp only [List.cons.injEq] at heq
        obtain ⟨hc, hr⟩ := heq
        subst hc hr
        have h3 := h2 rfl
        cases rest with
        | nil => rfl
        | cons d t =>
          have hd : d.isDigit = false := by simpa using h3
          rw [List.takeWhile_cons, hd]
          rfl
      · rfl
    rw [hfp]
    simp

theorem stof_of_noFloat {v : String} (h : NoFloat v) : stof v = Except.error "stof" := by
  unfold stof
  rw [strtod_of_noFloat h]

theorem stod_of_noFloat {v : String} (h : NoFloat v) : stod v = Except.error "stod" := by
  unfold stod
  rw [strtod_of_noFloat h]

namespace Paparazzi

/-! ## Lemmas on the pump loop -/

@[simp] theorem pumpN_zero (E : Env) (st : Paparazzi) : pumpN E 0 st = st := rfl

theorem pumpN_succ (E : Env) (k : ℕ) (st : Paparazzi) :
    pumpN E (k + 1) st = (pump E (pumpN E k st)).2 := rfl

theorem pumpN_succ_left (E : Env) (k : ℕ) (st : Paparazzi) :
    pumpN E (k + 1) st = pumpN E k (pump E st).2 := by
  induction k with
  | zero => rfl
  | succ k ih => rw [pumpN_succ, ih, ← pumpN_succ]

theorem pumpN_pumps (E : Env) (k : ℕ) (st : Paparazzi) :
    (pumpN E k st).pumps = st.pumps + k := by
  induction k with
  | zero => rfl
  | succ k ih => rw [pumpN_succ]; simp [pump, ih]; omega

theorem pumpN_calls (E : Env) (k : ℕ) (st : Paparazzi) :
    (pumpN E k st).calls = st.calls ++ List.replicate k (Call.update 10) := by
  induction k with
  | zero => simp
  | succ k ih =>
    rw [pumpN_succ]
    simp [pump, ih, List.replicate_add]

theorem pumpN_core (E : Env) (k : ℕ) (st : Paparazzi) : core (pumpN E k st) = core st := by
  induction k with
  | zero => rfl
  | succ k ih => rw [pumpN_succ, ← ih]; rfl

theorem pumpN_clock_ge (E : Env) (hE : Advancing E) (k : ℕ) (st : Paparazzi) :
    st.clock + k ≤ (pumpN E k st).clock := by
  induction k with
  | zero => simp
  | succ k ih =>
    rw [pumpN_succ]
    have := hE (pumpN E k st).pumps
    simp only [pump]
    omega

theorem updateLoop_eq (E : Env) (startTime : ℚ) (fuel : ℕ) (st : Paparazzi) (delta : ℚ)
    (bFinish : Bool) :
    updateLoop E startTime fuel st delta bFinish =
      if delta < MAX_WAITING_TIME ∧ bFinish = false then
        match fuel with
        | 0 => none
        | fuel + 1 =>
          updateLoop E startTime fuel (pump E st).2 (getTime (pump E st).2 - startTime)
            (pump E st).1
      else some st := by
  cases fuel <;> rw [updateLoop]

theorem updateLoop_sound (E : Env) (startTime : ℚ) :
    ∀ (fuel : ℕ) (st : Paparazzi) (delta : ℚ) (bFinish : Bool) (st' : Paparazzi),
      updateLoop E startTime fuel st delta bFinish = some st' →
      ∃ k, k ≤ fuel ∧ st' = pumpN E k st ∧
        (∀ j, j < k → loopDelta E startTime st delta j < MAX_WAITING_TIME ∧
          loopDone E st bFinish j = false) ∧
        ¬ (loopDelta E startTime st delta k < MAX_WAITING_TIME ∧
          loopDone E st bFinish k = false) := by
  intro fuel
  induction fuel with
  | zero =>
    intro st delta bFinish st' h
    rw [updateLoop_eq] at h
    split at h
    · simp at h
    · rename_i hc
      refine ⟨0, le_refl _, ?_, ?_, ?_⟩
      · simpa using h.symm
      · intro j hj; omega
      · simpa [loopDelta, loopDone] using hc
  | succ fuel ih =>
    intro st delta bFinish st' h
    rw [updateLoop_eq] at h
    split at h
    · rename_i hc
      obtain ⟨k, hk, hst, hlt, hstop⟩ := ih _ _ _ _ h
      refine ⟨k + 1, by omega, ?_, ?_, ?_⟩
      · rw [pumpN_succ_left]; exact hst
      · intro j hj
        cases j with
        | zero => simpa [loopDelta, loopDone] using hc
        | succ j =>
          have := hlt j (by omega)
          cases j with
          | zero => simpa [loopDelta, loopDone, pumpN_succ_left, pump] using this
          | succ j =>
            simpa [loopDelta, loopDone, pumpN_succ_left (k := j + 1), pump,
              Nat.add_assoc, Nat.add_comm 1 j] using this
      · cases k with
        | zero => simpa [loopDelta, loopDone, pumpN_succ_left, pump] using hstop
        | succ k =>
          simpa [loopDelta, loopDone, pumpN_succ_left (k := k + 1), pump,
            Nat.add_assoc, Nat.add_comm 1 k] using hstop
    · rename_i hc
      refine ⟨0, Nat.zero_le _, ?_, ?_, ?_⟩
      · simpa using h.symm
      · intro j hj; omega
      · simpa [loopDelta, loopDone] using hc

theorem updateLoop_total (E : Env) (hE : Advancing E) (s0 : Paparazzi) :
    ∀ (fuel : ℕ) (st : Paparazzi) (delta : ℚ) (bFinish : Bool),
      s0.clock ≤ st.clock → delta = getTime st - getTime s0 →
      enoughFuel ≤ fuel + (st.clock - s0.clock) →
      ∃ st', updateLoop E (getTime s0) fuel st delta bFinish = some st' := by
  intro fuel
  induction fuel with
  | zero =>
    intro st delta bFinish hle hd hfuel
    rw [updateLoop_eq]
    split
    · rename_i hc
      exfalso
      have h1 := hc.1
      rw [hd] at h1
      have h2 : ((enoughFuel : ℕ) : ℚ) ≤ ((st.clock - s0.clock : ℕ) : ℚ) := by
        exact_mod_cast (by omega : enoughFuel ≤ st.clock - s0.clock)
      rw [Nat.cast_sub hle] at h2
      simp only [getTime, MAX_WAITING_TIME, enoughFuel] at h1 h2
      push_cast at h2
      linarith
    · exact ⟨st, rfl⟩
  | succ fuel ih =>
    intro st delta bFinish hle hd hfuel
    rw [updateLoop_eq]
    split
    · have hp := hE st.pumps
      apply ih
      · simp only [pump]; omega
      · rfl
      · simp only [pump]; omega
    · exact ⟨st, rfl⟩

theorem update_total {E : Env} (hE : Advancing E) {fuel : ℕ} (hf : enoughFuel ≤ fuel)
    (st : Paparazzi) : ∃ st', update E fuel st = some st' := by
  unfold update
  apply updateLoop_total E hE st fuel st 0 false (le_refl _)
  · simp
  · omega

theorem update_sound {E : Env} {fuel : ℕ} {st st' : Paparazzi}
    (h : update E fuel st = some st') :
    ∃ k, 1 ≤ k ∧ k ≤ fuel ∧ st' = pumpN E k st ∧ stops E st k ∧
      ∀ j, 1 ≤ j → j < k → ¬ stops E st j := by
  obtain ⟨k, hk, hst, hlt, hstop⟩ := updateLoop_sound E _ _ _ _ _ _ h
  have hk1 : 1 ≤ k := by
    rcases Nat.eq_zero_or_pos k with h0 | h0
    · subst h0
      exfalso
      apply hstop
      simp [loopDelta, loopDone, MAX_WAITING_TIME]
    · exact h0
  refine ⟨k, hk1, hk, hst, ?_, ?_⟩
  · obtain ⟨k, rfl⟩ : ∃ m, k = m + 1 := ⟨k - 1, by omega⟩
    simp only [loopDelta, loopDone] at hstop
    simp only [stops, Nat.add_sub_cancel, ← Nat.add_assoc]
    by_cases hd : (E.pump (st.pumps + k)).1 = true
    · exact Or.inl hd
    · right
      have hd' : (E.pump (st.pumps + k)).1 = false := by simpa using hd
      by_contra hlt'
      exact hstop ⟨lt_of_not_le hlt', hd'⟩
  · intro j hj1 hjk hs
    obtain ⟨j, rfl⟩ : ∃ m, j = m + 1 := ⟨j - 1, by omega⟩
    have := hlt (j + 1) hjk
    simp only [loopDelta, loopDone] at this
    simp only [stops, Nat.add_sub_cancel, ← Nat.add_assoc] at hs
    rcases hs with hs | hs
    · rw [this.2] at hs; exact Bool.false_ne_true hs
    · exact absurd this.1 (not_lt.mpr hs)

theorem update_core {E : Env} {fuel : ℕ} {st st' : Paparazzi}
    (h : update E fuel st = some st') : core st' = core st := by
  obtain ⟨k, -, -, rfl, -, -⟩ := update_sound h
  exact pumpN_core E k st

theorem update_calls {E : Env} {fuel : ℕ} {st st' : Paparazzi}
    (h : update E fuel st = some st') :
    ∃ k, 1 ≤ k ∧ st'.calls = st.calls ++ List.replicate k (Call.update 10) := by
  obtain ⟨k, hk, -, rfl, -, -⟩ := update_sound h
  exact ⟨k, hk, pumpN_calls E k st⟩

/-! ## Traces -/

theorem Emits.refl (b : Bool) (lo hi : ℕ) (cs : List Call) : Emits b lo hi cs cs :=
  ⟨[], by simp, by simp, by simp [mutations], by simp [mutations]⟩

theorem Emits.of_eq {b : Bool} {lo hi : ℕ} {cs cs' : List Call} (h : cs' = cs) :
    Emits b lo hi cs cs' := h ▸ Emits.refl b lo hi cs

theorem Emits.trans {b : Bool} {l m h : ℕ} {cs1 cs2 cs3 : List Call}
    (hlm : l ≤ m) (hmh : m ≤ h)
    (h1 : Emits b l m cs1 cs2) (h2 : Emits b m h cs2 cs3) : Emits b l h cs1 cs3 := by
  obtain ⟨d1, rfl, hr1, hb1, hp1⟩ := h1
  obtain ⟨d2, rfl, hr2, hb2, hp2⟩ := h2
  refine ⟨d1 ++ d2, by simp, by simp [hr1, hr2], ?_, ?_⟩
  · intro c hc
    simp only [mutations, List.filter_append, List.mem_append] at hc
    rcases hc with hc | hc
    · have := hb1 c hc; omega
    · have := hb2 c hc; omega
  · simp only [mutations, List.filter_append]
    rw [List.pairwise_append]
    refine ⟨hp1, hp2, ?_⟩
    intro a ha c hc
    have := hb1 a ha
    have := hb2 c hc
    omega

theorem Emits.mono {b : Bool} {lo hi lo' hi' : ℕ} {cs cs' : List Call}
    (hlo : lo' ≤ lo) (hhi : hi ≤ hi') (h : Emits b lo hi cs cs') : Emits b lo' hi' cs cs' := by
  obtain ⟨d, rfl, hr, hb, hp⟩ := h
  exact ⟨d, rfl, hr, fun c hc => by have := hb c hc; omega, hp⟩

theorem Emits.pumps (b : Bool) (lo hi : ℕ) (cs : List Call) (k : ℕ) :
    Emits b lo hi cs (cs ++ List.replicate k (Call.update 10)) := by
  have hm : mutations (List.replicate k (Call.update 10)) = [] := by
    simp [mutations, List.filter_eq_nil_iff, Call.isMutation]
  refine ⟨_, rfl, ?_, ?_, ?_⟩
  · intro h
    have := List.eq_of_mem_replicate h
    cases this
  · rw [hm]; simp
  · rw [hm]; simp

theorem Emits.update {E : Env} {fuel : ℕ} {st st' : Paparazzi} (b : Bool) (lo hi : ℕ)
    (h : update E fuel st = some st') : Emits b lo hi st.calls st'.calls := by
  obtain ⟨k, -, hk⟩ := update_calls h
  rw [hk]
  exact Emits.pumps b lo hi st.calls k

theorem Emits.one (b : Bool) (cs : List Call) (c : Call) (hc : c.isMutation = true) :
    Emits b (c.rank b) (c.rank b + 1) cs (cs ++ [c]) := by
  refine ⟨[c], rfl, ?_, ?_, ?_⟩
  · intro h
    simp only [List.mem_singleton] at h
    subst h
    simp [Call.isMutation] at hc
  · intro a ha
    simp only [mutations, List.filter_cons, hc, List.filter_nil, if_true,
      List.mem_singleton] at ha
    subst ha
    omega
  · simp [mutations, hc]

theorem Emits.quiet (b : Bool) (lo hi : ℕ) (cs : List Call) (c : Call)
    (hc : c.isMutation = false) (hr : c ≠ Call.render) :
    Emits b lo hi cs (cs ++ [c]) := by
  refine ⟨[c], rfl, ?_, ?_, ?_⟩
  · simpa using hr.symm
  · simp [mutations, hc]
  · simp [mutations, hc]

/-! ## The setters -/

@[simp] theorem core_call (st : Paparazzi) (c : Call) : core (st.call c) = core st := rfl

@[simp] theorem call_calls (st : Paparazzi) (c : Call) : (st.call c).calls = st.calls ++ [c] :=
  rfl

theorem setZoom_total {E : Env} (hE : Advancing E) {fuel : ℕ} (hf : enoughFuel ≤ fuel)
    (st : Paparazzi) (z : ℚ) : ∃ st', setZoom E fuel st z = some st' := by
  unfold setZoom
  split
  · exact ⟨st, rfl⟩
  · exact update_total hE hf _

theorem setZoom_spec {E : Env} {fuel : ℕ} {st st' : Paparazzi} {z : ℚ} (b : Bool)
    (h : setZoom E fuel st z = some st') :
    core st' = { core st with m_zoom := z } ∧
      Emits b ((Call.setZoom z).rank b) ((Call.setZoom z).rank b + 1) st.calls st'.calls := by
  unfold setZoom at h
  split at h
  · rename_i hz
    cases h
    subst hz
    exact ⟨rfl, Emits.refl _ _ _ _⟩
  · refine ⟨?_, ?_⟩
    · rw [update_core h]; rfl
    · exact Emits.trans (Nat.le_succ _) (le_refl _) (Emits.one b st.calls _ rfl)
        (Emits.update b _ _ h)

theorem setTilt_total {E : Env} (hE : Advancing E) {fuel : ℕ} (hf : enoughFuel ≤ fuel)
    (st : Paparazzi) (t : ℚ) : ∃ st', setTilt E fuel st t = some st' := by
  unfold setTilt
  split
  · exact ⟨st, rfl⟩
  · exact update_total hE hf _

theorem setTilt_spec {E : Env} {fuel : ℕ} {st st' : Paparazzi} {t : ℚ} (b : Bool)
    (h : setTilt E fuel st t = some st') :
    core st' = { core st with m_tilt := t } ∧ Emits b 5 6 st.calls st'.calls := by
  unfold setTilt at h
  split at h
  · rename_i hz
    cases h
    subst hz
    exact ⟨rfl, Emits.refl _ _ _ _⟩
  · refine ⟨?_, ?_⟩
    · rw [update_core h]; rfl
    · exact Emits.trans (Nat.le_succ _) (le_refl _)
        (Emits.one b st.calls (Call.setTilt (E.radians t)) rfl) (Emits.update b _ _ h)

theorem setRotation_total {E : Env} (hE : Advancing E) {fuel : ℕ} (hf : enoughFuel ≤ fuel)
    (st : Paparazzi) (r : ℚ) : ∃ st', setRotation E fuel st r = some st' := by
  unfold setRotation
  split
  · exact ⟨st, rfl⟩
  · exact update_total hE hf _

theorem setRotation_spec {E : Env} {fuel : ℕ} {st st' : Paparazzi} {r : ℚ} (b : Bool)
    (h : setRotation E fuel st r = some st') :
    core st' = { core st with m_rotation := r } ∧ Emits b 6 7 st.calls st'.calls := by
  unfold setRotation at h
  split at h
  · rename_i hz
    cases h
    subst hz
    exact ⟨rfl, Emits.refl _ _ _ _⟩
  · refine ⟨?_, ?_⟩
    · rw [update_core h]; rfl
    · exact Emits.trans (Nat.le_succ _) (le_refl _)
        (Emits.one b st.calls (Call.setRotation (E.radians r)) rfl) (Emits.update b _ _ h)

theorem setPosition_total {E : Env} (hE : Advancing E) {fuel : ℕ} (hf : enoughFuel ≤ fuel)
    (st : Paparazzi) (lon lat : ℚ) : ∃ st', setPosition E fuel st lon lat = some st' := by
  unfold setPosition
  split
  · exact ⟨st, rfl⟩
  · exact update_total hE hf _

theorem setPosition_spec {E : Env} {fuel : ℕ} {st st' : Paparazzi} {lon lat : ℚ} (b : Bool)
    (h : setPosition E fuel st lon lat = some st') :
    core st' = { core st with m_lon := lon, m_lat := lat } ∧
      Emits b ((Call.setPosition lon lat).rank b) ((Call.setPosition lon lat).rank b + 1)
        st.calls st'.calls := by
  unfold setPosition at h
  split at h
  · rename_i hz
    cases h
    obtain ⟨h1, h2⟩ := hz
    subst h1 h2
    exact ⟨rfl, Emits.refl _ _ _ _⟩
  · refine ⟨?_, ?_⟩
    · rw [update_core h]; rfl
    · exact Emits.trans (Nat.le_succ _) (le_refl _) (Emits.one b st.calls _ rfl)
        (Emits.update b _ _ h)

theorem setScene_total {E : Env} (hE : Advancing E) {fuel : ℕ} (hf : enoughFuel ≤ fuel)
    (st : Paparazzi) (url : String) : ∃ st', setScene E fuel st url = some st' := by
  unfold setScene
  split
  · exact ⟨st, rfl⟩
  · exact update_total hE hf _

theorem setScene_spec {E : Env} {fuel : ℕ} {st st' : Paparazzi} {url : String} (b : Bool)
    (h : setScene E fuel st url = some st') :
    core st' = { core st with m_scene := url } ∧ Emits b 0 1 st.calls st'.calls := by
  unfold setScene at h
  split at h
  · rename_i hz
    cases h
    subst hz
    exact ⟨rfl, Emits.refl _ _ _ _⟩
  · refine ⟨?_, ?_⟩
    · rw [update_core h]; rfl
    · exact Emits.trans (Nat.le_succ _) (le_refl _)
        (Emits.one b st.calls (Call.loadSceneAsync url) rfl) (Emits.update b _ _ h)

theorem setSceneContent_total {E : Env} (hE : Advancing E) {fuel : ℕ}
    (hf : enoughFuel ≤ fuel) (st : Paparazzi) (body : String) :
    ∃ st', setSceneContent E fuel st body = some st' := by
  unfold setSceneContent
  simp only
  split
  · exact ⟨st, rfl⟩
  · exact update_total hE hf _

theorem setSceneContent_spec {E : Env} {fuel : ℕ} {st st' : Paparazzi} {body : String}
    (b : Bool) (h : setSceneContent E fuel st body = some st') :
    st'.m_scene = E.md5 body ∧ Emits b 0 1 st.calls st'.calls := by
  unfold setSceneContent at h
  simp only at h
  split at h
  · rename_i hz
    cases h
    exact ⟨hz.symm, Emits.refl _ _ _ _⟩
  · refine ⟨?_, ?_⟩
    · have := congrArg Paparazzi.m_scene (update_core h)
      simpa [core] using this
    · exact Emits.trans (Nat.le_succ _) (le_refl _)
        (Emits.one b st.calls (Call.loadSceneAsync _) rfl) (Emits.update b _ _ h)

theorem setSize_total {E : Env} (hE : Advancing E) {fuel : ℕ} (hf : enoughFuel ≤ fuel)
    (st : Paparazzi) (w h : ℤ) (d : ℚ) : ∃ st', setSize E fuel st w h d = some st' := by
  unfold setSize
  split
  · exact ⟨st, rfl⟩
  · simp only
    split
    · rename_i hnone
      obtain ⟨s, hs⟩ := update_total hE hf _
      rw [hnone] at hs
      cases hs
    · exact ⟨_, rfl⟩

theorem setSize_spec {E : Env} {fuel : ℕ} {st st' : Paparazzi} {w h : ℤ} {d : ℚ} (b : Bool)
    (hs : setSize E fuel st w h d = some st') :
    core st' = { core st with m_width := toInt (w * d), m_height := toInt (h * d),
                              pixelScale := d * AA_SCALE } ∧
      Emits b 1 3 st.calls st'.calls := by
  unfold setSize at hs
  split at hs
  · rename_i hg
    cases hs
    obtain ⟨h1, h2, h3⟩ := hg
    refine ⟨?_, Emits.refl _ _ _ _⟩
    have e1 : toInt (w * d) = st.m_width := by
      rw [mul_comm, h1, toInt_intCast]
    have e2 : toInt (h * d) = st.m_height := by
      rw [mul_comm, h2, toInt_intCast]
    rw [e1, e2, h3]
    rfl
  · simp only at hs
    split at hs
    · cases hs
    · rename_i st4 h4
      cases hs
      refine ⟨?_, ?_⟩
      · rw [core_call, update_core h4, core_call]
        by_cases hp : d * AA_SCALE = st.pixelScale
        · simp [getPixelScale, hp, core]
        · simp [getPixelScale, hp, core, mapSetPixelScale, call]
      · have e4 := Emits.update b 3 3 h4
        have e5 : Emits b 3 3 st4.calls (st4.call (Call.glResize st4.m_width st4.m_height)).calls :=
          Emits.quiet b 3 3 _ _ rfl (by simp)
        have e45 := Emits.trans (le_refl _) (le_refl _) e4 e5
        refine Emits.trans (m := 3) (by omega) (le_refl _) ?_ e45
        rw [call_calls]
        by_cases hp : d * AA_SCALE = st.pixelScale
        · simp only [getPixelScale, hp, ne_eq, not_true_eq_false, if_false]
          exact Emits.mono (by simp [Call.rank]) (by simp [Call.rank])
            (Emits.one b st.calls (Call.resize _ _) rfl)
        · simp only [getPixelScale, ne_eq, hp, not_false_eq_true, if_true, mapSetPixelScale,
            call]
          exact Emits.trans (m := 2) (by omega) (by omega)
            (Emits.one b st.calls (Call.setPixelScale (d * AA_SCALE)) rfl)
            (Emits.one b _ (Call.resize _ _) rfl)

/-! ## The stretches of the `try` block -/

end Paparazzi

theorem Outcome.holds_attempt {α β : Type} {P : Paparazzi → Prop} {st : Paparazzi}
    {e : Except String α} {k : α → Outcome β} (hst : P st)
    (hk : ∀ a, e = Except.ok a → (k a).Holds P) : (Outcome.attempt st e k).Holds P := by
  cases e with
  | error w => exact hst
  | ok a => exact hk a rfl

theorem Outcome.holds_andThen {α : Type} {P : Paparazzi → Prop} {o : Option Paparazzi}
    {k : Paparazzi → Outcome α} (hk : ∀ st, o = some st → (k st).Holds P) :
    (Outcome.andThen o k).Holds P := by
  cases o with
  | none => trivial
  | some st => exact hk st rfl

theorem Outcome.live_attempt {α β : Type} {st : Paparazzi}
    {e : Except String α} {k : α → Outcome β}
    (hk : ∀ a, e = Except.ok a → (k a).Live) : (Outcome.attempt st e k).Live := by
  cases e with
  | error w => trivial
  | ok a => exact hk a rfl

theorem Outcome.live_andThen {α : Type} {o : Option Paparazzi}
    {k : Paparazzi → Outcome α} (ho : ∃ st, o = some st)
    (hk : ∀ st, o = some st → (k st).Live) : (Outcome.andThen o k).Live := by
  obtain ⟨st, rfl⟩ := ho
  exact hk st rfl

theorem Outcome.live_bind {α β : Type} {o : Outcome α} {k : Paparazzi → α → Outcome β}
    (ho : o.Live) (hk : ∀ st a, o = Outcome.ok st a → (k st a).Live) : (o.bind k).Live := by
  cases o with
  | ok st a => exact hk st a rfl
  | thrown st w => trivial
  | starved => exact ho

theorem Outcome.holds_bind {α β : Type} {P Q : Paparazzi → Prop} {o : Outcome α}
    {k : Paparazzi → α → Outcome β} (ho : o.Holds P) (hPQ : ∀ st, P st → Q st)
    (hk : ∀ st a, o = Outcome.ok st a → P st → (k st a).Holds Q) : (o.bind k).Holds Q := by
  cases o with
  | ok st a => exact hk st a rfl ho
  | thrown st w => exact hPQ st ho
  | starved => trivial

theorem Outcome.isOk_attempt {α β : Type} {st : Paparazzi} {e : Except String α}
    {k : α → Outcome β} {a : α} (he : e = Except.ok a) (hk : (k a).IsOk) :
    (Outcome.attempt st e k).IsOk := by
  subst he
  exact hk

theorem Outcome.isOk_andThen {α : Type} {o : Option Paparazzi}
    {k : Paparazzi → Outcome α} (ho : ∃ st, o = some st)
    (hk : ∀ st, o = some st → (k st).IsOk) : (Outcome.andThen o k).IsOk := by
  obtain ⟨st, rfl⟩ := ho
  exact hk st rfl

theorem Outcome.isOk_bind {α β : Type} {o : Outcome α} {k : Paparazzi → α → Outcome β}
    (ho : o.IsOk) (hk : ∀ st a, o = Outcome.ok st a → (k st a).IsOk) : (o.bind k).IsOk := by
  cases o with
  | ok st a => exact hk st a rfl
  | thrown st w => exact ho.elim
  | starved => exact ho.elim

theorem Outcome.attempt_eq_ok {α β : Type} {st st' : Paparazzi} {e : Except String α}
    {k : α → Outcome β} {b : β} (h : Outcome.attempt st e k = Outcome.ok st' b) :
    ∃ a, e = Except.ok a ∧ k a = Outcome.ok st' b := by
  cases e with
  | error w => simp [Outcome.attempt] at h
  | ok a => exact ⟨a, rfl, h⟩

theorem Outcome.andThen_eq_ok {α : Type} {o : Option Paparazzi} {st' : Paparazzi}
    {k : Paparazzi → Outcome α} {b : α} (h : Outcome.andThen o k = Outcome.ok st' b) :
    ∃ s, o = some s ∧ k s = Outcome.ok st' b := by
  cases o with
  | none => simp [Outcome.andThen] at h
  | some s => exact ⟨s, rfl, h⟩

theorem Outcome.bind_eq_ok {α β : Type} {o : Outcome α} {st' : Paparazzi}
    {k : Paparazzi → α → Outcome β} {b : β} (h : o.bind k = Outcome.ok st' b) :
    ∃ s a, o = Outcome.ok s a ∧ k s a = Outcome.ok st' b := by
  cases o with
  | ok s a => exact ⟨s, a, rfl, h⟩
  | thrown s w => simp [Outcome.bind] at h
  | starved => simp [Outcome.bind] at h

theorem Outcome.Holds.imp {α : Type} {P Q : Paparazzi → Prop} {o : Outcome α}
    (h : o.Holds P) (hPQ : ∀ st, P st → Q st) : o.Holds Q := by
  cases o with
  | ok st a => exact hPQ st h
  | thrown st w => exact hPQ st h
  | starved => trivial

namespace Paparazzi

theorem sceneOf_of_core {st st' x : Paparazzi} (h : core st' = x)
    (hx : sceneOf x = sceneOf st) : sceneOf st' = sceneOf st := by
  rw [← hx, ← h]; rfl

theorem viewOf_of_core {st st' x : Paparazzi} (h : core st' = x)
    (hx : viewOf x = viewOf st) : viewOf st' = viewOf st := by
  rw [← hx, ← h]; rfl

theorem sceneStage_holds (E : Env) (fuel : ℕ) (st : Paparazzi) (request : http_request_t)
    (b : Bool) :
    (sceneStage E fuel st request).Holds (fun st' => Emits b 0 1 st.calls st'.calls) := by
  unfold sceneStage
  split
  · split
    · exact Emits.refl _ _ _ _
    · exact Outcome.holds_andThen fun st1 h1 => (setSceneContent_spec b h1).2
  · exact Outcome.holds_andThen fun st1 h1 => (setScene_spec b h1).2

theorem sceneStage_live {E : Env} (hE : Advancing E) {fuel : ℕ} (hf : enoughFuel ≤ fuel)
    (st : Paparazzi) (request : http_request_t) : (sceneStage E fuel st request).Live := by
  unfold sceneStage
  split
  · split
    · trivial
    · exact Outcome.live_andThen (setSceneContent_total hE hf _ _) fun _ _ => trivial
  · exact Outcome.live_andThen (setScene_total hE hf _ _) fun _ _ => trivial

theorem explicitView_holds (E : Env) (fuel : ℕ) (st : Paparazzi) (request : http_request_t)
    (density : ℚ) :
    (explicitView E fuel st request density).Holds
      (fun st' => Emits true 1 5 st.calls st'.calls ∧ sceneOf st' = sceneOf st) := by
  unfold explicitView
  refine Outcome.holds_attempt ⟨Emits.refl _ _ _ _, rfl⟩ fun width _ => ?_
  refine Outcome.holds_attempt ⟨Emits.refl _ _ _ _, rfl⟩ fun height _ => ?_
  refine Outcome.holds_andThen fun st1 h1 => ?_
  obtain ⟨c1, e1⟩ := setSize_spec true h1
  have s1 : sceneOf st1 = sceneOf st := sceneOf_of_core c1 rfl
  have e1' : Emits true 1 5 st.calls st1.calls := Emits.mono (le_refl _) (by omega) e1
  refine Outcome.holds_attempt ⟨e1', s1⟩ fun lon _ => ?_
  refine Outcome.holds_attempt ⟨e1', s1⟩ fun lat _ => ?_
  refine Outcome.holds_andThen fun st2 h2 => ?_
  have c2 := (setPosition_spec true h2).1
  have e2 : Emits true 3 4 st1.calls st2.calls := (setPosition_spec true h2).2
  have s2 : sceneOf st2 = sceneOf st := (sceneOf_of_core c2 rfl).trans s1
  have e12 : Emits true 1 4 st.calls st2.calls :=
    Emits.trans (m := 3) (by omega) (by omega) e1 e2
  refine Outcome.holds_attempt ⟨Emits.mono (le_refl _) (by omega) e12, s2⟩ fun zoom _ => ?_
  refine Outcome.holds_andThen fun st3 h3 => ?_
  have c3 := (setZoom_spec true h3).1
  have e3 : Emits true 4 5 st2.calls st3.calls := (setZoom_spec true h3).2
  exact ⟨Emits.trans (m := 4) (by omega) (by omega) e12 e3,
    (sceneOf_of_core c3 rfl).trans s2⟩

theorem explicitView_live {E : Env} (hE : Advancing E) {fuel : ℕ} (hf : enoughFuel ≤ fuel)
    (st : Paparazzi) (request : http_request_t) (density : ℚ) :
    (explicitView E fuel st request density).Live := by
  unfold explicitView
  refine Outcome.live_attempt fun width _ => ?_
  refine Outcome.live_attempt fun height _ => ?_
  refine Outcome.live_andThen (setSize_total hE hf _ _ _ _) fun st1 _ => ?_
  refine Outcome.live_attempt fun lon _ => ?_
  refine Outcome.live_attempt fun lat _ => ?_
  refine Outcome.live_andThen (setPosition_total hE hf _ _ _) fun st2 _ => ?_
  refine Outcome.live_attempt fun zoom _ => ?_
  exact Outcome.live_andThen (setZoom_total hE hf _ _) fun _ _ => trivial

theorem tileView_holds (E : Env) (fuel : ℕ) (st : Paparazzi) (request : http_request_t)
    (density : ℚ) :
    (tileView E fuel st request density).Holds
      (fun st' => Emits false 1 5 st.calls st'.calls ∧ sceneOf st' = sceneOf st) := by
  unfold tileView
  split
  · refine Outcome.holds_andThen fun st1 h1 => ?_
    obtain ⟨c1, e1⟩ := setSize_spec false h1
    have s1 : sceneOf st1 = sceneOf st := sceneOf_of_core c1 rfl
    refine Outcome.holds_andThen fun st2 h2 => ?_
    have c2 := (setZoom_spec false h2).1
    have e2 : Emits false 3 4 st1.calls st2.calls := (setZoom_spec false h2).2
    have s2 : sceneOf st2 = sceneOf st := (sceneOf_of_core c2 rfl).trans s1
    refine Outcome.holds_andThen fun st3 h3 => ?_
    have c3 := (setPosition_spec false h3).1
    have e3 : Emits false 4 5 st2.calls st3.calls := (setPosition_spec false h3).2
    exact ⟨Emits.trans (m := 4) (by omega) (by omega)
        (Emits.trans (m := 3) (by omega) (by omega) e1 e2) e3,
      (sceneOf_of_core c3 rfl).trans s2⟩
  · exact ⟨Emits.refl _ _ _ _, rfl⟩

theorem tileView_live {E : Env} (hE : Advancing E) {fuel : ℕ} (hf : enoughFuel ≤ fuel)
    (st : Paparazzi) (request : http_request_t) (density : ℚ) :
    (tileView E fuel st request density).Live := by
  unfold tileView
  split
  · refine Outcome.live_andThen (setSize_total hE hf _ _ _ _) fun st1 _ => ?_
    refine Outcome.live_andThen (setZoom_total hE hf _ _) fun st2 _ => ?_
    exact Outcome.live_andThen (setPosition_total hE hf _ _ _) fun _ _ => trivial
  · trivial

theorem tiltRotation_holds (E : Env) (fuel : ℕ) (st : Paparazzi) (request : http_request_t)
    (b : Bool) :
    (tiltRotation E fuel st request).Holds
      (fun st' => Emits b 5 7 st.calls st'.calls ∧ sceneOf st' = sceneOf st ∧
        viewOf st' = viewOf st) := by
  unfold tiltRotation
  refine Outcome.holds_attempt ⟨Emits.refl _ _ _ _, rfl, rfl⟩ fun tilt _ => ?_
  refine Outcome.holds_andThen fun st1 h1 => ?_
  obtain ⟨c1, e1⟩ := setTilt_spec b h1
  have s1 : sceneOf st1 = sceneOf st := sceneOf_of_core c1 rfl
  have v1 : viewOf st1 = viewOf st := viewOf_of_core c1 rfl
  refine Outcome.holds_attempt ⟨Emits.mono (le_refl _) (by omega) e1, s1, v1⟩
    fun rotation _ => ?_
  refine Outcome.holds_andThen fun st2 h2 => ?_
  obtain ⟨c2, e2⟩ := setRotation_spec b h2
  exact ⟨Emits.trans (m := 6) (by omega) (by omega) e1 e2,
    (sceneOf_of_core c2 rfl).trans s1, (viewOf_of_core c2 rfl).trans v1⟩

theorem tiltRotation_live {E : Env} (hE : Advancing E) {fuel : ℕ} (hf : enoughFuel ≤ fuel)
    (st : Paparazzi) (request : http_request_t) : (tiltRotation E fuel st request).Live := by
  unfold tiltRotation
  refine Outcome.live_attempt fun tilt _ => ?_
  refine Outcome.live_andThen (setTilt_total hE hf _ _) fun st1 _ => ?_
  refine Outcome.live_attempt fun rotation _ => ?_
  exact Outcome.live_andThen (setRotation_total hE hf _ _) fun _ _ => trivial

theorem viewStage_holds (E : Env) (fuel : ℕ) (st : Paparazzi) (request : http_request_t)
    (density : ℚ) :
    (viewStage E fuel st request density).Holds
      (fun st' => Emits (size_and_pos request) 1 5 st.calls st'.calls ∧
        sceneOf st' = sceneOf st) := by
  unfold viewStage
  cases size_and_pos request with
  | true => exact explicitView_holds E fuel st request density
  | false => exact tileView_holds E fuel st request density

theorem viewStage_live {E : Env} (hE : Advancing E) {fuel : ℕ} (hf : enoughFuel ≤ fuel)
    (st : Paparazzi) (request : http_request_t) (density : ℚ) :
    (viewStage E fuel st request density).Live := by
  unfold viewStage
  split
  · exact explicitView_live hE hf _ _ _
  · exact tileView_live hE hf _ _ _

theorem renderStage_live {E : Env} (hE : Advancing E) {fuel : ℕ} (hf : enoughFuel ≤ fuel)
    (st : Paparazzi) : (renderStage E fuel st).Live :=
  Outcome.live_andThen (update_total hE hf st) fun _ _ => trivial

theorem afterScene_live {E : Env} (hE : Advancing E) {fuel : ℕ} (hf : enoughFuel ≤ fuel)
    (st : Paparazzi) (request : http_request_t) : (afterScene E fuel st request).Live := by
  unfold afterScene
  refine Outcome.live_attempt fun density _ => ?_
  refine Outcome.live_bind (viewStage_live hE hf _ _ _) fun st2 _ _ => ?_
  exact Outcome.live_bind (tiltRotation_live hE hf _ _) fun st3 _ _ =>
    renderStage_live hE hf st3

/-- Totality of the handler: under an advancing clock and with enough fuel
every request is answered. -/
theorem work_total {E : Env} (hE : Advancing E) {fuel : ℕ} (hf : enoughFuel ≤ fuel)
    (st : Paparazzi) (request : http_request_t) :
    ∃ st' res, work E fuel st request = some (st', res) := by
  unfold work
  split
  · exact ⟨_, _, rfl⟩
  · unfold tryBlock
    have h1 := sceneStage_live hE hf st request
    cases hs : sceneStage E fuel st request with
    | starved => rw [hs] at h1; exact h1.elim
    | thrown st1 what => exact ⟨_, _, rfl⟩
    | ok st1 hb =>
      have h2 := afterScene_live hE hf st1 request
      dsimp only
      cases ha : afterScene E fuel st1 request with
      | starved => rw [ha] at h2; exact h2.elim
      | thrown st2 what => exact ⟨_, _, rfl⟩
      | ok st2 image => exact ⟨_, _, rfl⟩

theorem afterScene_shape (E : Env) (fuel : ℕ) (st : Paparazzi) (request : http_request_t) :
    Rendered E fuel (size_and_pos request) 1 st (afterScene E fuel st request) := by
  unfold afterScene
  cases pixel_density request with
  | error w => exact ⟨Emits.refl _ _ _ _, rfl⟩
  | ok density =>
    simp only [Outcome.attempt]
    have hv := viewStage_holds E fuel st request density
    cases hvo : viewStage E fuel st request density with
    | starved => trivial
    | thrown st2 w =>
      rw [hvo] at hv
      exact ⟨Emits.mono (le_refl _) (by omega) hv.1, hv.2⟩
    | ok st2 u =>
      rw [hvo] at hv
      simp only [Outcome.bind]
      have ht := tiltRotation_holds E fuel st2 request (size_and_pos request)
      have key : ∀ st3, Emits (size_and_pos request) 5 7 st2.calls st3.calls ∧
          sceneOf st3 = sceneOf st2 ∧ viewOf st3 = viewOf st2 →
          Emits (size_and_pos request) 1 7 st.calls st3.calls ∧ sceneOf st3 = sceneOf st :=
        fun st3 h3 => ⟨Emits.trans (m := 5) (by omega) (by omega) hv.1 h3.1,
          h3.2.1.trans hv.2⟩
      cases hto : tiltRotation E fuel st2 request with
      | starved => trivial
      | thrown st3 w =>
        rw [hto] at ht
        exact key st3 ht
      | ok st3 u =>
        rw [hto] at ht
        simp only [renderStage]
        cases hu : update E fuel st3 with
        | none => trivial
        | some st4 =>
          exact ⟨rfl, st3, st4, (key st3 ht).1, (key st3 ht).2, hu, rfl⟩

/-- The shape of the trace of one request that is not a health check: after
an exception (400) the view-mutating calls are in order and there is no
`render`; otherwise (200) such a trace is followed by one completed pump loop
and by `render`. -/
theorem work_shape {E : Env} {fuel : ℕ} {st st' : Paparazzi} {request : http_request_t}
    {res : result_t} (hp : request.path ≠ "/check")
    (h : work E fuel st request = some (st', res)) :
    (∃ what hb, res = ⟨false, [⟨400, "Bad Request", what, [CORS]⟩], hb⟩ ∧
        Emits (size_and_pos request) 0 7 st.calls st'.calls) ∨
    (∃ st1 st2 hb, res = ⟨false, [⟨200, "OK", "", [CORS, PNG_MIME]⟩], hb⟩ ∧
        Emits (size_and_pos request) 0 7 st.calls st1.calls ∧
        update E fuel st1 = some st2 ∧ st' = st2.call Call.render) := by
  unfold work at h
  rw [if_neg hp] at h
  unfold tryBlock at h
  have hs := sceneStage_holds E fuel st request (size_and_pos request)
  cases hsc : sceneStage E fuel st request with
  | starved => rw [hsc] at h; simp at h
  | thrown st1 what =>
    rw [hsc] at h hs
    simp only [Option.some.injEq, Prod.mk.injEq] at h
    obtain ⟨rfl, rfl⟩ := h
    exact Or.inl ⟨_, _, rfl, Emits.mono (le_refl _) (by omega) hs⟩
  | ok st1 hb =>
    rw [hsc] at h hs
    dsimp only at h
    have ha := afterScene_shape E fuel st1 request
    cases hao : afterScene E fuel st1 request with
    | starved => rw [hao] at h; simp at h
    | thrown st2 what =>
      rw [hao] at h ha
      simp only [Option.some.injEq, Prod.mk.injEq] at h
      obtain ⟨rfl, rfl⟩ := h
      exact Or.inl ⟨_, _, rfl, Emits.trans (m := 1) (by omega) (by omega) hs ha.1⟩
    | ok st2 image =>
      rw [hao] at h ha
      simp only [Option.some.injEq, Prod.mk.injEq] at h
      obtain ⟨rfl, rfl⟩ := h
      obtain ⟨rfl, s1, s2, he, -, hu, hst⟩ := ha
      exact Or.inr ⟨s1, s2, _, rfl, Emits.trans (m := 1) (by omega) (by omega) hs he, hu,
        hst⟩

/-- The scene stretch ends normally as soon as there is a scene. -/
theorem sceneStage_isOk {E : Env} (hE : Advancing E) {fuel : ℕ} (hf : enoughFuel ≤ fuel)
    (st : Paparazzi) {request : http_request_t}
    (hs : front request.query "scene" ≠ none ∨ request.body ≠ "") :
    (sceneStage E fuel st request).IsOk := by
  unfold sceneStage
  split
  · rename_i hn
    rcases hs with hs | hs
    · exact absurd hn hs
    · rw [if_neg hs]
      exact Outcome.isOk_andThen (setSceneContent_total hE hf _ _) fun _ _ => trivial
  · exact Outcome.isOk_andThen (setScene_total hE hf _ _) fun _ _ => trivial

/-- A tile path is served: the three setters run and leave the view of the
tile. -/
theorem tileView_matched {E : Env} (hE : Advancing E) {fuel : ℕ} (hf : enoughFuel ≤ fuel)
    (st : Paparazzi) {request : http_request_t} (d : ℚ) {m1 m2 m3 : List Char}
    (hm : regex_search request.path.toList = some (m1, m2, m3)) :
    ∃ st3, tileView E fuel st request d = Outcome.ok st3 () ∧
      viewOf st3 = (toInt (256 * d), toInt (256 * d), d * AA_SCALE,
        tileLng (extractInt m1).toNat (extractInt m2).toNat,
        tileLat E (extractInt m1).toNat (extractInt m3).toNat,
        ((extractInt m1).toNat : ℚ)) := by
  unfold tileView
  rw [hm]
  dsimp only
  obtain ⟨st1, h1⟩ := setSize_total hE hf st 256 256 d
  rw [h1]
  simp only [Outcome.andThen]
  obtain ⟨st2, h2⟩ := setZoom_total hE hf st1 ((extractInt m1).toNat : ℚ)
  rw [h2]
  dsimp only
  obtain ⟨st3, h3⟩ := setPosition_total hE hf st2
    (((extractInt m2).toNat + 1 / 2 : ℚ) / 2 ^ (extractInt m1).toNat * 360 - 180)
    (radians_to_degrees (E.atan (E.sinh
      (M_PI * (1 - 2 * ((extractInt m3).toNat + 1 / 2 : ℚ) / 2 ^ (extractInt m1).toNat)))))
  rw [h3]
  refine ⟨st3, rfl, ?_⟩
  have v1 := congrArg viewOf (setSize_spec true h1).1
  have v2 := congrArg viewOf (setZoom_spec true h2).1
  have v3 := congrArg viewOf (setPosition_spec true h3).1
  simp only [viewOf, core, Prod.mk.injEq] at v1 v2 v3
  simp only [viewOf, Prod.mk.injEq, tileLng, tileLat]
  obtain ⟨a1, a2, a3, a4, a5, a6⟩ := v1
  obtain ⟨b1, b2, b3, b4, b5, b6⟩ := v2
  obtain ⟨c1, c2, c3, c4, c5, c6⟩ := v3
  refine ⟨?_, ?_, ?_, c4, c5, ?_⟩
  · rw [c1, b1, a1]; simp
  · rw [c2, b2, a2]; simp
  · rw [c3, b3, a3]
  · rw [c6, b6]

theorem tiltRotation_isOk {E : Env} (hE : Advancing E) {fuel : ℕ} (hf : enoughFuel ≤ fuel)
    (st : Paparazzi) {request : http_request_t} {t r : ℚ}
    (ht : angle request "tilt" = Except.ok t) (hr : angle request "rotation" = Except.ok r) :
    (tiltRotation E fuel st request).IsOk := by
  unfold tiltRotation
  refine Outcome.isOk_attempt ht ?_
  refine Outcome.isOk_andThen (setTilt_total hE hf _ _) fun st1 _ => ?_
  refine Outcome.isOk_attempt hr ?_
  exact Outcome.isOk_andThen (setRotation_total hE hf _ _) fun _ _ => trivial

theorem renderStage_isOk {E : Env} (hE : Advancing E) {fuel : ℕ} (hf : enoughFuel ≤ fuel)
    (st : Paparazzi) : (renderStage E fuel st).IsOk :=
  Outcome.isOk_andThen (update_total hE hf st) fun _ _ => trivial

theorem renderStage_view (E : Env) (fuel : ℕ) (st : Paparazzi) :
    (renderStage E fuel st).Holds (fun st' => viewOf st' = viewOf st) :=
  Outcome.holds_andThen fun s h1 =>
    @viewOf_of_core st (s.call Call.render) _ ((core_call s _).trans (update_core h1)) rfl

/-- After the scene, a tile request leaves the view of its tile, however the
rest of the request ends, and ends normally when tilt and rotation parse. -/
theorem afterScene_tile {E : Env} (hE : Advancing E) {fuel : ℕ} (hf : enoughFuel ≤ fuel)
    (st : Paparazzi) {request : http_request_t} {d : ℚ} {m1 m2 m3 : List Char}
    (hsp : size_and_pos request = false) (hd : pixel_density request = Except.ok d)
    (hm : regex_search request.path.toList = some (m1, m2, m3)) :
    (afterScene E fuel st request).Holds (fun st' =>
        viewOf st' = (toInt (256 * d), toInt (256 * d), d * AA_SCALE,
          tileLng (extractInt m1).toNat (extractInt m2).toNat,
          tileLat E (extractInt m1).toNat (extractInt m3).toNat,
          ((extractInt m1).toNat : ℚ))) ∧
      ((∃ t, angle request "tilt" = Except.ok t) →
        (∃ r, angle request "rotation" = Except.ok r) →
        (afterScene E fuel st request).IsOk) := by
  obtain ⟨st3, h3, hv⟩ := tileView_matched hE hf st d hm
  have hvs : viewStage E fuel st request d = Outcome.ok st3 () := by
    unfold viewStage
    rw [hsp]
    exact h3
  unfold afterScene
  rw [hd]
  simp only [Outcome.attempt, hvs, Outcome.bind]
  constructor
  · refine Outcome.holds_bind (tiltRotation_holds E fuel st3 request true)
      (fun s hs => hs.2.2.trans hv) fun s _ _ hs => ?_
    exact (renderStage_view E fuel s).imp fun s' hs' => hs'.trans (hs.2.2.trans hv)
  · rintro ⟨t, ht⟩ ⟨r, hr⟩
    exact Outcome.isOk_bind (tiltRotation_isOk hE hf st3 ht hr) fun s _ _ =>
      renderStage_isOk hE hf s

/-! ## Exact traces -/

theorem since_append (st st' : Paparazzi) (d : List Call) (h : st'.calls = st.calls ++ d) :
    since st st' = d := by
  unfold since
  rw [h, List.drop_left]

theorem since_self (st : Paparazzi) : since st st = [] := by
  unfold since
  simp


theorem Trace.nil (cs : List Call) : Trace cs cs [] := ⟨[], by simp, rfl⟩

theorem Trace.append {cs cs1 cs2 : List Call} {ns1 ns2 : List Call}
    (h1 : Trace cs cs1 ns1) (h2 : Trace cs1 cs2 ns2) : Trace cs cs2 (ns1 ++ ns2) := by
  obtain ⟨d1, e1, rfl⟩ := h1
  obtain ⟨d2, e2, rfl⟩ := h2
  exact ⟨d1 ++ d2, by rw [e2, e1, List.append_assoc], by simp [withoutPumps]⟩

theorem Trace.ofUpdate {E : Env} {fuel : ℕ} {st st' : Paparazzi}
    (h : update E fuel st = some st') : Trace st.calls st'.calls [] := by
  obtain ⟨k, -, hk⟩ := update_calls h
  exact ⟨_, hk, by simp [withoutPumps, List.filter_eq_nil_iff]⟩

theorem Trace.single (cs : List Call) (c : Call) (hc : c ≠ Call.update 10) :
    Trace cs (cs ++ [c]) [c] :=
  ⟨[c], rfl, by simp [withoutPumps, hc]⟩

theorem Trace.since_eq {st st' : Paparazzi} {ns : List Call}
    (h : Trace st.calls st'.calls ns) : withoutPumps (since st st') = ns := by
  obtain ⟨d, hd, rfl⟩ := h
  rw [since_append st st' d hd]

theorem mutations_withoutPumps (cs : List Call) :
    mutations (withoutPumps cs) = mutations cs := by
  unfold mutations withoutPumps
  rw [List.filter_filter]
  congr 1
  funext c
  cases c <;> simp [Call.isMutation]

theorem Trace.mutations_eq {st st' : Paparazzi} {ns : List Call}
    (h : Trace st.calls st'.calls ns) : Tangram.mutations (since st st') = Tangram.mutations ns := by
  rw [← h.since_eq, mutations_withoutPumps]

theorem Trace.step {E : Env} {fuel : ℕ} {st1 st' : Paparazzi} {cs : List Call} {c : Call}
    (h : update E fuel st1 = some st') (h1 : st1.calls = cs ++ [c])
    (hc : c ≠ Call.update 10) : Trace cs st'.calls [c] := by
  have := (Trace.single cs c hc).append (h1 ▸ Trace.ofUpdate h)
  simpa using this

theorem setZoom_trace {E : Env} {fuel : ℕ} {st st' : Paparazzi} {z : ℚ}
    (h : setZoom E fuel st z = some st') :
    Trace st.calls st'.calls (if z = st.m_zoom then [] else [Call.setZoom z]) := by
  unfold setZoom at h
  split at h
  · rename_i hg; cases h; rw [if_pos hg]; exact Trace.nil _
  · rename_i hg; rw [if_neg hg]; exact Trace.step h rfl (by simp)

theorem setTilt_trace {E : Env} {fuel : ℕ} {st st' : Paparazzi} {t : ℚ}
    (h : setTilt E fuel st t = some st') :
    Trace st.calls st'.calls
      (if t = st.m_tilt then [] else [Call.setTilt (E.radians t)]) := by
  unfold setTilt at h
  split at h
  · rename_i hg; cases h; rw [if_pos hg]; exact Trace.nil _
  · rename_i hg; rw [if_neg hg]; exact Trace.step h rfl (by simp)

theorem setRotation_trace {E : Env} {fuel : ℕ} {st st' : Paparazzi} {r : ℚ}
    (h : setRotation E fuel st r = some st') :
    Trace st.calls st'.calls
      (if r = st.m_rotation then [] else [Call.setRotation (E.radians r)]) := by
  unfold setRotation at h
  split at h
  · rename_i hg; cases h; rw [if_pos hg]; exact Trace.nil _
  · rename_i hg; rw [if_neg hg]; exact Trace.step h rfl (by simp)

theorem setPosition_trace {E : Env} {fuel : ℕ} {st st' : Paparazzi} {lon lat : ℚ}
    (h : setPosition E fuel st lon lat = some st') :
    Trace st.calls st'.calls (if lon = st.m_lon ∧ lat = st.m_lat then []
      else [Call.setPosition lon lat]) := by
  unfold setPosition at h
  split at h
  · rename_i hg; cases h; rw [if_pos hg]; exact Trace.nil _
  · rename_i hg; rw [if_neg hg]; exact Trace.step h rfl (by simp)

theorem setScene_trace {E : Env} {fuel : ℕ} {st st' : Paparazzi} {url : String}
    (h : setScene E fuel st url = some st') :
    Trace st.calls st'.calls
      (if url = st.m_scene then [] else [Call.loadSceneAsync url]) := by
  unfold setScene at h
  split at h
  · rename_i hg; cases h; rw [if_pos hg]; exact Trace.nil _
  · rename_i hg; rw [if_neg hg]; exact Trace.step h rfl (by simp)

theorem setSize_trace {E : Env} {fuel : ℕ} {st st' : Paparazzi} {w h : ℤ} {d : ℚ}
    (hs : setSize E fuel st w h d = some st') :
    Trace st.calls st'.calls
      (if d * w = st.m_width ∧ d * h = st.m_height ∧ d * AA_SCALE = st.pixelScale then []
       else (if d * AA_SCALE = st.pixelScale then []
             else [Call.setPixelScale (d * AA_SCALE)]) ++
         [Call.resize (toInt (toInt (w * d) * AA_SCALE)) (toInt (toInt (h * d) * AA_SCALE)),
          Call.glResize (toInt (w * d)) (toInt (h * d))]) := by
  unfold setSize at hs
  split at hs
  · rename_i hg
    cases hs
    rw [if_pos (by simpa [getPixelScale] using hg)]
    exact Trace.nil _
  · rename_i hg
    rw [if_neg (by simpa [getPixelScale] using hg)]
    simp only at hs
    split at hs
    · cases hs
    · rename_i st4 h4
      cases hs
      have hw : st4.m_width = toInt (w * d) := by
        have := congrArg Paparazzi.m_width (update_core h4)
        by_cases hp : d * AA_SCALE = st.pixelScale <;>
          simpa [core, call, getPixelScale, mapSetPixelScale, hp] using this
      have hh : st4.m_height = toInt (h * d) := by
        have := congrArg Paparazzi.m_height (update_core h4)
        by_cases hp : d * AA_SCALE = st.pixelScale <;>
          simpa [core, call, getPixelScale, mapSetPixelScale, hp] using this
      rw [hw, hh, call_calls]
      have t4 := (Trace.ofUpdate h4).append
        (Trace.single st4.calls (Call.glResize (toInt (w * d)) (toInt (h * d))) (by simp))
      by_cases hp : d * AA_SCALE = st.pixelScale
      · simp only [getPixelScale, hp, ne_eq, not_true_eq_false, if_false, if_true,
          List.nil_append, call_calls] at t4 ⊢
        have t1 : Trace st.calls (st.calls ++
            [Call.resize (toInt (toInt (w * d) * AA_SCALE))
              (toInt (toInt (h * d) * AA_SCALE))]) [Call.resize _ _] :=
          Trace.single _ _ (by simp)
        exact t1.append t4
      · simp only [getPixelScale, hp, ne_eq, not_false_eq_true, if_true, if_false,
          call_calls, mapSetPixelScale] at t4 ⊢
        have t1 : Trace st.calls (st.calls ++ [Call.setPixelScale (d * AA_SCALE)] ++
            [Call.resize (toInt (toInt (w * d) * AA_SCALE))
              (toInt (toInt (h * d) * AA_SCALE))])
            [Call.setPixelScale (d * AA_SCALE), Call.resize _ _] :=
          (Trace.single _ _ (by simp)).append (Trace.single _ _ (by simp))
        exact t1.append t4

/-! ## Requests that are answered with 200, step by step -/

/-- A tile request that is answered: the chain of setter calls behind it. -/
theorem work_tile_inv {E : Env} {fuel : ℕ} {st st' : Paparazzi} {request : http_request_t}
    {res : result_t} {url : String} {d t r : ℚ} {m1 m2 m3 : List Char}
    (hp : request.path ≠ "/check") (hu : front request.query "scene" = some url)
    (hsp : size_and_pos request = false) (hd : pixel_density request = Except.ok d)
    (hm : regex_search request.path.toList = some (m1, m2, m3))
    (ht : angle request "tilt" = Except.ok t) (hr : angle request "rotation" = Except.ok r)
    (h : work E fuel st request = some (st', res)) :
    ∃ s1 s2 s3 s4 s5 s6 s7, setScene E fuel st url = some s1 ∧
      setSize E fuel s1 256 256 d = some s2 ∧
      setZoom E fuel s2 ((extractInt m1).toNat : ℚ) = some s3 ∧
      setPosition E fuel s3 (tileLng (extractInt m1).toNat (extractInt m2).toNat)
        (tileLat E (extractInt m1).toNat (extractInt m3).toNat) = some s4 ∧
      setTilt E fuel s4 t = some s5 ∧ setRotation E fuel s5 r = some s6 ∧
      update E fuel s6 = some s7 ∧ st' = s7.call Call.render ∧
      res = ⟨false, [⟨200, "OK", "", [CORS, PNG_MIME]⟩], url⟩ := by
  unfold work at h
  rw [if_neg hp] at h
  unfold tryBlock sceneStage at h
  rw [hu] at h
  dsimp only at h
  cases h1 : setScene E fuel st url with
  | none => rw [h1] at h; simp [Outcome.andThen] at h
  | some s1 =>
  rw [h1] at h
  simp only [Outcome.andThen, afterScene, hd, Outcome.attempt, viewStage, hsp, tileView,
    hm, Bool.false_eq_true, if_false] at h
  cases h2 : setSize E fuel s1 256 256 d with
  | none => rw [h2] at h; simp [Outcome.bind] at h
  | some s2 =>
  rw [h2] at h
  dsimp only at h
  cases h3 : setZoom E fuel s2 ((extractInt m1).toNat : ℚ) with
  | none => rw [h3] at h; simp [Outcome.bind] at h
  | some s3 =>
  rw [h3] at h
  dsimp only at h
  cases h4 : setPosition E fuel s3 (tileLng (extractInt m1).toNat (extractInt m2).toNat)
      (tileLat E (extractInt m1).toNat (extractInt m3).toNat) with
  | none =>
    simp only [tileLng, tileLat] at h4
    rw [h4] at h; simp [Outcome.bind] at h
  | some s4 =>
  simp only [tileLng, tileLat] at h4
  rw [h4] at h
  simp only [Outcome.bind, tiltRotation, ht, Outcome.attempt] at h
  cases h5 : setTilt E fuel s4 t with
  | none => rw [h5] at h; simp [Outcome.andThen] at h
  | some s5 =>
  rw [h5] at h
  simp only [Outcome.andThen, hr, Outcome.attempt] at h
  cases h6 : setRotation E fuel s5 r with
  | none => rw [h6] at h; simp at h
  | some s6 =>
  rw [h6] at h
  simp only [renderStage] at h
  cases h7 : update E fuel s6 with
  | none => rw [h7] at h; simp [Outcome.andThen] at h
  | some s7 =>
  rw [h7] at h
  simp only [Outcome.andThen, Option.some.injEq, Prod.mk.injEq] at h
  refine ⟨s1, s2, s3, s4, s5, s6, s7, rfl, h2, h3, ?_, h5, h6, h7, h.1.symm, h.2.symm⟩
  simp only [tileLng, tileLat]
  exact h4

theorem new_core {E : Env} {fuel : ℕ} {st0 : Paparazzi}
    (h : Paparazzi.new E fuel = Outcome.ok st0 ()) : core st0 = core freshWorker := by
  unfold Paparazzi.new at h
  simp only at h
  split at h
  · cases h
  · split at h
    · cases h
    · obtain ⟨s5, h5, h⟩ := Outcome.andThen_eq_ok h
      obtain ⟨s6, h6, h⟩ := Outcome.andThen_eq_ok h
      cases h
      have c5 := update_core h5
      have c6 := (setSize_spec true h6).1
      have w5 : s5.m_width = 100 := by
        have := congrArg Paparazzi.m_width c5
        simpa [core, call, mapSetPixelScale] using this
      have h5' : s5.m_height = 100 := by
        have := congrArg Paparazzi.m_height c5
        simpa [core, call, mapSetPixelScale] using this
      rw [c6, c5, w5, h5']
      simp [core, call, mapSetPixelScale, freshWorker, AA_SCALE, toInt]

/-- A request with a scene whose path holds a tile and whose query holds no
complete explicit view is answered; it leaves the view of the tile, and the
answer is 200 when tilt and rotation parse. -/
theorem work_tile {E : Env} (hE : Advancing E) {fuel : ℕ} (hf : enoughFuel ≤ fuel)
    (st : Paparazzi) {request : http_request_t} {d : ℚ} {m1 m2 m3 : List Char}
    (hp : request.path ≠ "/check")
    (hs : front request.query "scene" ≠ none ∨ request.body ≠ "")
    (hsp : size_and_pos request = false) (hd : pixel_density request = Except.ok d)
    (hm : regex_search request.path.toList = some (m1, m2, m3)) :
    ∃ st' res, work E fuel st request = some (st', res) ∧
      viewOf st' = (toInt (256 * d), toInt (256 * d), d * AA_SCALE,
        tileLng (extractInt m1).toNat (extractInt m2).toNat,
        tileLat E (extractInt m1).toNat (extractInt m3).toNat,
        ((extractInt m1).toNat : ℚ)) ∧
      ((∃ t, angle request "tilt" = Except.ok t) →
        (∃ r, angle request "rotation" = Except.ok r) →
        res.messages = [⟨200, "OK", "", [CORS, PNG_MIME]⟩] ∧
          (since st st').count Call.render = 1) := by
  unfold work
  rw [if_neg hp]
  unfold tryBlock
  have h1 := sceneStage_isOk hE hf st hs
  cases hsc : sceneStage E fuel st request with
  | starved => rw [hsc] at h1; exact h1.elim
  | thrown s w => rw [hsc] at h1; exact h1.elim
  | ok s1 hb =>
    dsimp only
    obtain ⟨hv, hok⟩ := afterScene_tile hE hf s1 hsp hd hm
    have hsh := afterScene_shape E fuel s1 request
    have hl := afterScene_live hE hf s1 request
    have he1 := sceneStage_holds E fuel st request (size_and_pos request)
    rw [hsc] at he1
    cases ha : afterScene E fuel s1 request with
    | starved => rw [ha] at hl; exact hl.elim
    | thrown s2 w =>
      rw [ha] at hv hok
      refine ⟨_, _, rfl, hv, fun h2 h3 => (hok h2 h3).elim⟩
    | ok s2 image =>
      rw [ha] at hv hsh
      obtain ⟨rfl, a1, a2, he, -, hu, rfl⟩ := hsh
      refine ⟨_, _, rfl, hv, fun _ _ => ⟨rfl, ?_⟩⟩
      obtain ⟨d1, hd1, hr1, -, -⟩ := Emits.trans (m := 1) (by omega) (by omega) he1 he
      obtain ⟨k, -, hk⟩ := update_calls hu
      have hsn : since st (a2.call Call.render) =
          d1 ++ List.replicate k (Call.update 10) ++ [Call.render] := by
        apply since_append
        rw [call_calls, hk, hd1]
        simp
      rw [hsn]
      simp only [List.count_append, List.count_replicate]
      rw [List.count_eq_zero_of_not_mem hr1]
      simp

/-- A request answered with 200 has had every number it uses parsed: the
density, tilt and rotation, and the five parameters of an explicit view. -/
theorem work_ok_parsed {E : Env} {fuel : ℕ} {st st' : Paparazzi} {request : http_request_t}
    {res : result_t} (hp : request.path ≠ "/check")
    (h : work E fuel st request = some (st', res)) (hc : res.codes = [200]) :
    (∃ d, pixel_density request = Except.ok d) ∧
    (∃ t, angle request "tilt" = Except.ok t) ∧
    (∃ r, angle request "rotation" = Except.ok r) ∧
    (size_and_pos request = true →
      (∃ w, stoi ((front request.query "width").getD "") = Except.ok w) ∧
      (∃ w, stoi ((front request.query "height").getD "") = Except.ok w) ∧
      (∃ w, stod ((front request.query "lon").getD "") = Except.ok w) ∧
      (∃ w, stod ((front request.query "lat").getD "") = Except.ok w) ∧
      (∃ w, stof ((front request.query "zoom").getD "") = Except.ok w)) := by
  unfold work at h
  rw [if_neg hp] at h
  unfold tryBlock at h
  cases hsc : sceneStage E fuel st request with
  | starved => rw [hsc] at h; simp at h
  | thrown s w =>
    rw [hsc] at h
    simp only [Option.some.injEq, Prod.mk.injEq] at h
    rw [← h.2] at hc
    simp [result_t.codes] at hc
  | ok s1 hb =>
    rw [hsc] at h
    dsimp only at h
    cases ha : afterScene E fuel s1 request with
    | starved => rw [ha] at h; simp at h
    | thrown s w =>
      rw [ha] at h
      simp only [Option.some.injEq, Prod.mk.injEq] at h
      rw [← h.2] at hc
      simp [result_t.codes] at hc
    | ok s2 image =>
      unfold afterScene at ha
      obtain ⟨d, hd, ha⟩ := Outcome.attempt_eq_ok ha
      obtain ⟨s3, u, hv, ha⟩ := Outcome.bind_eq_ok ha
      obtain ⟨s4, u', htr, -⟩ := Outcome.bind_eq_ok ha
      unfold tiltRotation at htr
      obtain ⟨t, ht, htr⟩ := Outcome.attempt_eq_ok htr
      obtain ⟨s5, -, htr⟩ := Outcome.andThen_eq_ok htr
      obtain ⟨r, hr, -⟩ := Outcome.attempt_eq_ok htr
      refine ⟨⟨d, hd⟩, ⟨t, ht⟩, ⟨r, hr⟩, fun hsp => ?_⟩
      unfold viewStage at hv
      rw [hsp] at hv
      simp only [if_true] at hv
      unfold explicitView at hv
      obtain ⟨w, hw, hv⟩ := Outcome.attempt_eq_ok hv
      obtain ⟨hh, hhh, hv⟩ := Outcome.attempt_eq_ok hv
      obtain ⟨s6, -, hv⟩ := Outcome.andThen_eq_ok hv
      obtain ⟨lon, hlon, hv⟩ := Outcome.attempt_eq_ok hv
      obtain ⟨lat, hlat, hv⟩ := Outcome.attempt_eq_ok hv
      obtain ⟨s7, -, hv⟩ := Outcome.andThen_eq_ok hv
      obtain ⟨z, hz, -⟩ := Outcome.attempt_eq_ok hv
      exact ⟨⟨w, hw⟩, ⟨hh, hhh⟩, ⟨lon, hlon⟩, ⟨lat, hlat⟩, ⟨z, hz⟩⟩

theorem advancing_stubEnv : Advancing stubEnv := fun _ => le_refl _

theorem advancing_busyEnv : Advancing busyEnv := fun _ => by simp [busyEnv]

theorem mutations_append (l1 l2 : List Call) :
    mutations (l1 ++ l2) = mutations l1 ++ mutations l2 := by
  simp [mutations]

theorem mutations_pumps (k : ℕ) : mutations (List.replicate k (Call.update 10)) = [] := by
  simp [mutations, List.filter_eq_nil_iff, Call.isMutation]

theorem work_check {E : Env} {fuel : ℕ} {st : Paparazzi} {request : http_request_t}
    (hp : request.path = "/check") :
    work E fuel st request =
      some (st, ⟨false, [⟨200, "OK", "OK", [CORS, TXT_MIME]⟩], ""⟩) := by
  unfold work
  rw [if_pos hp]

end Paparazzi

/-! ## The claims -/

open Paparazzi

theorem exists_of_map_eq_some {α β : Type} {o : Option α} {f : α → β} {b : β}
    (h : o.map f = some b) : ∃ a, o = some a ∧ f a = b := by
  cases o with
  | none => simp at h
  | some a => exact ⟨a, rfl, by simpa using h⟩

/-- The tile request of scenario S3 on a fresh worker with the test double:
the calls it makes and the status. -/
theorem stub_tile_trace :
    (work stubEnv 1 freshWorker reqTile).map (fun r => (since freshWorker r.1, r.2.codes)) =
      some ([Call.loadSceneAsync "http://example/scene.yaml", Call.update 10,
        Call.resize 512 512, Call.update 10, Call.glResize 256 256, Call.setZoom 2,
        Call.update 10, Call.setPosition (-45) 45, Call.update 10, Call.update 10,
        Call.render], [200]) := by
  decide!

/-- The explicit request of scenario S4 on a fresh worker with the test
double: the calls it makes and the status. -/
theorem stub_explicit_trace :
    (work stubEnv 1 freshWorker reqExplicit).map
        (fun r => (since freshWorker r.1, r.2.codes)) =
      some ([Call.loadSceneAsync "http://e/s.yaml", Call.update 10,
        Call.resize 400 200, Call.update 10, Call.glResize 200 100,
        Call.setPosition (-74) (407 / 10), Call.update 10, Call.setZoom 12, Call.update 10,
        Call.setTilt 30, Call.update 10, Call.setRotation 45, Call.update 10,
        Call.update 10, Call.render], [200]) := by
  decide!

/-- C10: `Paparazzi::update` pumps with a slice of 10 s at least once and stops
exactly at the first pump after which the engine reported done or 100 s have
elapsed since entry; with a clock that advances it always returns, whatever
the engine answers, and every request is answered.  A request other than
`/check` answered with 200 ends with one completed pump loop, entered after
all the mutations of the request, followed by the only `render`, which is the
last call.  A request answered with 400 and a `/check` request make no
`render` call. -/
theorem C10_pump_then_render (E : Env) (fuel : ℕ) (st : Paparazzi) :
    (∀ st', update E fuel st = some st' →
      ∃ k, 1 ≤ k ∧ st' = pumpN E k st ∧
        st'.calls = st.calls ++ List.replicate k (Call.update 10) ∧
        stops E st k ∧ ∀ j, 1 ≤ j → j < k → ¬ stops E st j) ∧
    (Advancing E → enoughFuel ≤ fuel →
      (∃ st', update E fuel st = some st') ∧
      ∀ request, ∃ st' res, work E fuel st request = some (st', res)) ∧
    (∀ request st' res, work E fuel st request = some (st', res) →
      (request.path ≠ "/check" → res.codes = [200] →
        ∃ d st1 st2 k, st1.calls = st.calls ++ d ∧ Call.render ∉ d ∧
          update E fuel st1 = some st2 ∧ 1 ≤ k ∧
          st2.calls = st1.calls ++ List.replicate k (Call.update 10) ∧
          st' = st2.call Call.render ∧
          since st st' = d ++ List.replicate k (Call.update 10) ++ [Call.render] ∧
          mutations (since st st') = mutations d ∧
          (since st st').count Call.render = 1) ∧
      ((res.codes = [400] ∨ request.path = "/check") → Call.render ∉ since st st')) := by
  refine ⟨?_, ?_, ?_⟩
  · intro st' h
    obtain ⟨k, hk1, -, hst, hstop, hfirst⟩ := update_sound h
    exact ⟨k, hk1, hst, by rw [hst, pumpN_calls], hstop, hfirst⟩
  · intro hE hf
    exact ⟨update_total hE hf st, fun request => work_total hE hf st request⟩
  · intro request st' res h
    constructor
    · intro hp hc
      rcases work_shape hp h with ⟨what, hb, rfl, -⟩ | ⟨st1, st2, hb, rfl, he, hu, rfl⟩
      · simp [result_t.codes] at hc
      · obtain ⟨d, hd, hr, -, -⟩ := he
        obtain ⟨k, hk, hk2⟩ := update_calls hu
        have hs : since st (st2.call Call.render) =
            d ++ List.replicate k (Call.update 10) ++ [Call.render] := by
          apply since_append
          rw [call_calls, hk2, hd]
          simp
        refine ⟨d, st1, st2, k, hd, hr, hu, hk, hk2, rfl, hs, ?_, ?_⟩
        · rw [hs, mutations_append, mutations_append, mutations_pumps]
          simp [mutations, Call.isMutation]
        · rw [hs]
          simp only [List.count_append, List.count_replicate]
          rw [List.count_eq_zero_of_not_mem hr]
          simp
    · intro hc
      by_cases hp : request.path = "/check"
      · rw [work_check hp] at h
        simp only [Option.some.injEq, Prod.mk.injEq] at h
        rw [← h.1, since_self]
        simp
      · rcases hc with hc | hc
        · rcases work_shape hp h with ⟨what, hb, rfl, he⟩ | ⟨st1, st2, hb, rfl, -, -, -⟩
          · obtain ⟨d, hd, hr, -, -⟩ := he
            rw [since_append st st' d hd]
            exact hr
          · simp [result_t.codes] at hc
        · exact absurd hc hp

/-- Witness of C10 with an engine that never reports done and a clock that
advances: the pump loop returns, every request is answered, and the tile
request of scenario S3 is answered 200 after one completed pump loop followed
by the only `render`. -/
theorem C10_pump_then_render_witness :
    ((∃ st', update busyEnv enoughFuel freshWorker = some st') ∧
      ∀ request, ∃ st' res, work busyEnv enoughFuel freshWorker request = some (st', res)) ∧
    ∃ st' res d st1 st2 k, work busyEnv enoughFuel freshWorker reqTile = some (st', res) ∧
      res.codes = [200] ∧ st1.calls = freshWorker.calls ++ d ∧ Call.render ∉ d ∧
      update busyEnv enoughFuel st1 = some st2 ∧ 1 ≤ k ∧
      st' = st2.call Call.render ∧
      since freshWorker st' = d ++ List.replicate k (Call.update 10) ++ [Call.render] ∧
      (since freshWorker st').count Call.render = 1 := by
  refine ⟨(C10_pump_then_render busyEnv enoughFuel freshWorker).2.1 advancing_busyEnv
    (le_refl _), ?_⟩
  have hm : regex_search reqTile.path.toList = some ([ '2'], [ '1'], [ '1']) := by decide
  have hd : pixel_density reqTile = Except.ok 1 := rfl
  obtain ⟨st', res, h, -, hok⟩ := work_tile advancing_busyEnv (le_refl _) freshWorker
    (by decide) (by decide) (by decide) hd hm
  have hc : res.codes = [200] := by
    have := (hok ⟨0, rfl⟩ ⟨0, rfl⟩).1
    simp [result_t.codes, this]
  obtain ⟨d, st1, st2, k, h1, h2, h3, h4, -, h6, h7, -, h9⟩ :=
    ((C10_pump_then_render busyEnv enoughFuel freshWorker).2.2 reqTile st' res h).1
      (by decide) hc
  exact ⟨st', res, d, st1, st2, k, h, hc, h1, h2, h3, h4, h6, h7, h9⟩

/-- C9, counterexample: the tile request of scenario S3 on a fresh worker sets
the zoom before the position, against the order scene, size, position,
zoom. -/
theorem C9_tile_zoom_before_position :
    ∃ st' res, work stubEnv 1 freshWorker reqTile = some (st', res) ∧
      mutations (since freshWorker st') =
        [Call.loadSceneAsync "http://example/scene.yaml", Call.resize 512 512,
          Call.setZoom 2, Call.setPosition (-45) 45] ∧
      ¬ (mutations (since freshWorker st')).Pairwise
          (fun a b => a.specRank ≤ b.specRank) := by
  obtain ⟨r, hr, hf⟩ := exists_of_map_eq_some stub_tile_trace
  simp only [Prod.mk.injEq] at hf
  have hm : mutations (since freshWorker r.1) =
      [Call.loadSceneAsync "http://example/scene.yaml", Call.resize 512 512,
        Call.setZoom 2, Call.setPosition (-45) 45] := by
    rw [hf.1]; rfl
  refine ⟨r.1, r.2, hr, hm, ?_⟩
  rw [hm]
  simp [Call.specRank, Call.rank]

/-- C9, amended: the view-mutating calls of one request come in a fixed order
that depends on the kind of view: scene, pixel scale, size, position, zoom,
tilt, rotation for an explicit view, and scene, pixel scale, size, zoom,
position, tilt, rotation for a tile; each is made at most once. -/
theorem C9_order_of_mutations (E : Env) (fuel : ℕ) (st st' : Paparazzi)
    (request : http_request_t) (res : result_t)
    (h : work E fuel st request = some (st', res)) :
    (mutations (since st st')).Pairwise
        (fun a b => a.rank (size_and_pos request) < b.rank (size_and_pos request)) ∧
    (size_and_pos request = true →
      (mutations (since st st')).Pairwise (fun a b => a.specRank < b.specRank)) := by
  have key : (mutations (since st st')).Pairwise
      (fun a b => a.rank (size_and_pos request) < b.rank (size_and_pos request)) := by
    by_cases hp : request.path = "/check"
    · rw [work_check hp] at h
      simp only [Option.some.injEq, Prod.mk.injEq] at h
      rw [← h.1, since_self]
      simp [mutations]
    · rcases work_shape hp h with ⟨what, hb, rfl, he⟩ | ⟨st1, st2, hb, rfl, he, hu, rfl⟩
      · obtain ⟨d, hd, -, -, hpw⟩ := he
        rw [since_append st st' d hd]
        exact hpw
      · obtain ⟨d, hd, -, -, hpw⟩ := he
        obtain ⟨k, -, hk2⟩ := update_calls hu
        have hs : since st (st2.call Call.render) =
            d ++ List.replicate k (Call.update 10) ++ [Call.render] := by
          apply since_append
          rw [call_calls, hk2, hd]
          simp
        rw [hs, mutations_append, mutations_append, mutations_pumps]
        simpa [mutations, Call.isMutation] using hpw
  refine ⟨key, fun hsp => ?_⟩
  rw [hsp] at key
  exact key

/-- Witness of C9 on the tile request of scenario S3 and on the explicit
request of scenario S4. -/
theorem C9_order_of_mutations_witness :
    (∃ st' res, work stubEnv 1 freshWorker reqTile = some (st', res) ∧
      (mutations (since freshWorker st')).Pairwise
        (fun a b => a.rank (size_and_pos reqTile) < b.rank (size_and_pos reqTile))) ∧
    (∃ st' res, work stubEnv 1 freshWorker reqExplicit = some (st', res) ∧
      (mutations (since freshWorker st')).Pairwise (fun a b => a.specRank < b.specRank)) := by
  obtain ⟨r, hr, -⟩ := exists_of_map_eq_some stub_tile_trace
  obtain ⟨r', hr', -⟩ := exists_of_map_eq_some stub_explicit_trace
  exact ⟨⟨r.1, r.2, hr, (C9_order_of_mutations stubEnv 1 freshWorker r.1 reqTile r.2 hr).1⟩,
    ⟨r'.1, r'.2, hr',
      (C9_order_of_mutations stubEnv 1 freshWorker r'.1 reqExplicit r'.2 hr').2
        (by decide)⟩⟩

/-- C3, counterexample: on the worker the constructor leaves, the tile request
of scenario S3 is answered 200 and sets the zoom to 2, but the position it sets
has longitude -45, not `(0, 0)`, and the engine is resized to `512 x 512`, which
is `256·AA_SCALE`, not `512·AA_SCALE`. -/
theorem C3_position_and_size_differ :
    Paparazzi.new stubEnv 1 = Outcome.ok freshWorker () ∧
    ∃ st' res, work stubEnv 1 freshWorker reqTile = some (st', res) ∧ res.codes = [200] ∧
      Call.setZoom 2 ∈ since freshWorker st' ∧
      Call.setPosition 0 0 ∉ since freshWorker st' ∧
      Call.resize (toInt (512 * AA_SCALE)) (toInt (512 * AA_SCALE)) ∉ since freshWorker st' ∧
      Call.resize (toInt (256 * AA_SCALE)) (toInt (256 * AA_SCALE)) ∈ since freshWorker st' := by
  refine ⟨by decide!, ?_⟩
  obtain ⟨r, hr, hf⟩ := exists_of_map_eq_some stub_tile_trace
  simp only [Prod.mk.injEq] at hf
  have e1 : toInt (512 * AA_SCALE) = 1024 := by decide!
  have e2 : toInt (256 * AA_SCALE) = 512 := by decide!
  refine ⟨r.1, r.2, hr, hf.2, ?_, ?_, ?_, ?_⟩
  · rw [hf.1]; simp
  · rw [hf.1]; simp
  · rw [hf.1, e1]; simp
  · rw [hf.1, e2]; simp

/-- C3, amended: on a freshly constructed worker the request
`GET /2/1/1.png?scene=http://example/scene.yaml` is answered 200 with
`Content-type: image/png`; apart from pump calls, the calls made are
`load_scene` of the URL, `resize(512, 512)` (that is `256·AA_SCALE`), the GL
resize to `256 x 256`, `set_zoom(2)`, `set_position(-45, lat)` with `lat` the
latitude of the centre of tile 2/1/1, and `render`. -/
theorem C3_tile_on_fresh_worker (E : Env) (fuel : ℕ) (st0 : Paparazzi)
    (hE : Advancing E) (hf : enoughFuel ≤ fuel)
    (h0 : Paparazzi.new E fuel = Outcome.ok st0 ()) :
    ∃ st' res, work E fuel st0 reqTile = some (st', res) ∧
      res = ⟨false, [⟨200, "OK", "", [CORS, PNG_MIME]⟩], "http://example/scene.yaml"⟩ ∧
      withoutPumps (since st0 st') =
        [Call.loadSceneAsync "http://example/scene.yaml", Call.resize 512 512,
          Call.glResize 256 256, Call.setZoom 2, Call.setPosition (-45) (tileLat E 2 1),
          Call.render] ∧
      (512 : ℚ) = 256 * AA_SCALE := by
  obtain ⟨st', res, h⟩ := work_total hE hf st0 reqTile
  have hd : pixel_density reqTile = Except.ok 1 := rfl
  have ht : angle reqTile "tilt" = Except.ok 0 := rfl
  have hr : angle reqTile "rotation" = Except.ok 0 := rfl
  have hm : regex_search reqTile.path.toList = some ([ '2'], [ '1'], [ '1']) := by decide
  have hu : front reqTile.query "scene" = some "http://example/scene.yaml" := by decide
  obtain ⟨s1, s2, s3, s4, s5, s6, s7, h1, h2, h3, h4, h5, h6, h7, rfl, rfl⟩ :=
    work_tile_inv (by decide) hu (by decide) hd hm ht hr h
  refine ⟨_, _, h, rfl, ?_, by norm_num [AA_SCALE]⟩
  have c0 := new_core h0
  have c1 := (setScene_spec true h1).1
  have c2 := (setSize_spec true h2).1
  have c3 := (setZoom_spec true h3).1
  have c4 := (setPosition_spec true h4).1
  have c5 := (setTilt_spec true h5).1
  rw [c0] at c1
  rw [c1] at c2
  rw [c2] at c3
  rw [c3] at c4
  rw [c4] at c5
  have t1 := setScene_trace h1
  have t2 := setSize_trace h2
  have t3 := setZoom_trace h3
  have t4 := setPosition_trace h4
  have t5 := setTilt_trace h5
  have t6 := setRotation_trace h6
  have t7 := (Trace.ofUpdate h7).append (Trace.single s7.calls Call.render (by simp))
  have f0 : st0.m_scene = "scene.yaml" := congrArg Paparazzi.m_scene c0
  have f1w : s1.m_width = 100 := congrArg Paparazzi.m_width c1
  have f1h : s1.m_height = 100 := congrArg Paparazzi.m_height c1
  have f1p : s1.pixelScale = 2 := congrArg Paparazzi.pixelScale c1
  have f2 : s2.m_zoom = 0 := congrArg Paparazzi.m_zoom c2
  have f3 : s3.m_lon = 0 := congrArg Paparazzi.m_lon c3
  have f4 : s4.m_tilt = 0 := congrArg Paparazzi.m_tilt c4
  have f5 : s5.m_rotation = 0 := congrArg Paparazzi.m_rotation c5
  have x1 : (extractInt [ '2']).toNat = 2 := by decide
  have x2 : (extractInt [ '1']).toNat = 1 := by decide
  have lng : tileLng 2 1 = -45 := by norm_num [tileLng]
  rw [x1, x2, lng] at t4
  rw [x1] at t3
  rw [f0, if_neg (by decide)] at t1
  rw [f1w, f1h, f1p, if_neg (by norm_num), if_pos (by norm_num [AA_SCALE])] at t2
  rw [f2, if_neg (by norm_num)] at t3
  rw [f3, if_neg (by norm_num)] at t4
  rw [f4, if_pos rfl] at t5
  rw [f5, if_pos rfl] at t6
  have e1 : toInt (((256 : ℤ) : ℚ) * 1) = 256 := by decide!
  have e2 : toInt (((256 : ℤ) : ℚ) * AA_SCALE) = 512 := by decide!
  rw [e1, e2] at t2
  have t := (((((t1.append t2).append t3).append t4).append t5).append t6).append t7
  have := @Trace.since_eq st0 (s7.call Call.render) _ t
  simpa using this

/-- Witness of C3 with the test double. -/
theorem C3_tile_on_fresh_worker_witness :
    ∃ st' res, work stubEnv enoughFuel freshWorker reqTile = some (st', res) ∧
      res = ⟨false, [⟨200, "OK", "", [CORS, PNG_MIME]⟩], "http://example/scene.yaml"⟩ ∧
      withoutPumps (since freshWorker st') =
        [Call.loadSceneAsync "http://example/scene.yaml", Call.resize 512 512,
          Call.glResize 256 256, Call.setZoom 2,
          Call.setPosition (-45) (tileLat stubEnv 2 1), Call.render] ∧
      (512 : ℚ) = 256 * AA_SCALE :=
  C3_tile_on_fresh_worker stubEnv enoughFuel freshWorker advancing_stubEnv (le_refl _)
    (by decide!)

/-- The request with `width=12abc` with the test double: width, status and
number of `render` calls. -/
theorem stub_width_12abc :
    (work stubEnv 1 freshWorker reqWidth12abc).map
        (fun r => (r.1.m_width, r.2.codes, (since freshWorker r.1).count Call.render)) =
      some (12, [200], 1) := by
  decide!

/-- The tile request with `width=abc` with the test double: status and number
of `render` calls. -/
theorem stub_tile_width_abc :
    (work stubEnv 1 freshWorker reqTileWidthAbc).map
        (fun r => (r.2.codes, (since freshWorker r.1).count Call.render)) =
      some ([200], 1) := by
  decide!

/-- C6, counterexample: three requests with a width that is not a parseable
number are answered 200: `width=12abc` in an explicit view is read as 12 and
rendered; `width=abc` beside a tile path, the other explicit-view parameters
missing, is ignored and the tile is rendered; `width=abc` on `/check` is
ignored. -/
theorem C6_unparseable_yet_served :
    stoi "12abc" = Except.ok 12 ∧
    (∃ st' res, work stubEnv 1 freshWorker reqWidth12abc = some (st', res) ∧
      res.codes = [200] ∧ st'.m_width = 12 ∧
      (since freshWorker st').count Call.render = 1) ∧
    (∃ w, stoi "abc" = Except.error w) ∧
    (∃ st' res, work stubEnv 1 freshWorker reqTileWidthAbc = some (st', res) ∧
      res.codes = [200] ∧ (since freshWorker st').count Call.render = 1) ∧
    (∃ st' res, work stubEnv 1 freshWorker reqCheckWidthAbc = some (st', res) ∧
      res.codes = [200]) := by
  refine ⟨rfl, ?_, ⟨"stoi", rfl⟩, ?_, ?_⟩
  · obtain ⟨r, hr, hf⟩ := exists_of_map_eq_some stub_width_12abc
    simp only [Prod.mk.injEq] at hf
    exact ⟨r.1, r.2, hr, hf.2.1, hf.1, hf.2.2⟩
  · obtain ⟨r, hr, hf⟩ := exists_of_map_eq_some stub_tile_width_abc
    simp only [Prod.mk.injEq] at hf
    exact ⟨r.1, r.2, hr, hf.1, hf.2⟩
  · exact ⟨_, _, work_check rfl, rfl⟩

/-- C6, amended: for every request other than `/check`, the answer is
`400 Bad Request` and nothing is rendered when a number that the handler
reads cannot be converted: `density`, `tilt` or `rotation` with a value that
does not start with a number, or, when `width`, `height`, `lon`, `lat` and
`zoom` all have a value, one of them on which `std::stoi` throws (no leading
integer, or one that does not fit an `int`) or that does not start with a
number.  A value that only starts with a number, such as `12abc`, is read as
that number, and the five parameters are not read at all unless all are
there. -/
theorem C6_bad_number (E : Env) (fuel : ℕ) (st : Paparazzi) (request : http_request_t)
    (hE : Advancing E) (hf : enoughFuel ≤ fuel) (hp : request.path ≠ "/check")
    (hbad :
      (∃ v, front request.query "density" = some v ∧ NoFloat v) ∨
      (∃ v, front request.query "tilt" = some v ∧ NoFloat v) ∨
      (∃ v, front request.query "rotation" = some v ∧ NoFloat v) ∨
      (size_and_pos request = true ∧
        ((∃ v w, front request.query "width" = some v ∧ stoi v = Except.error w) ∨
         (∃ v w, front request.query "height" = some v ∧ stoi v = Except.error w) ∨
         (∃ v, front request.query "lon" = some v ∧ NoFloat v) ∨
         (∃ v, front request.query "lat" = some v ∧ NoFloat v) ∨
         (∃ v, front request.query "zoom" = some v ∧ NoFloat v)))) :
    ∃ st' what hb, work E fuel st request =
        some (st', ⟨false, [⟨400, "Bad Request", what, [CORS]⟩], hb⟩) ∧
      Call.render ∉ since st st' := by
  obtain ⟨st', res, h⟩ := work_total hE hf st request
  rcases work_shape hp h with ⟨what, hb, rfl, he⟩ | ⟨st1, st2, hb, rfl, -, -, -⟩
  · obtain ⟨d, hd, hr, -, -⟩ := he
    refine ⟨st', what, hb, h, ?_⟩
    rw [since_append st st' d hd]
    exact hr
  · exfalso
    obtain ⟨⟨d, hd⟩, ⟨t, ht⟩, ⟨r, hr⟩, hx⟩ := work_ok_parsed hp h rfl
    rcases hbad with ⟨v, hv, hw⟩ | ⟨v, hv, hw⟩ | ⟨v, hv, hw⟩ | ⟨hsp, hbad⟩
    · simp [pixel_density, hv, stof_of_noFloat hw] at hd
    · simp [angle, hv, stof_of_noFloat hw] at ht
    · simp [angle, hv, stof_of_noFloat hw] at hr
    · obtain ⟨⟨a1, h1⟩, ⟨a2, h2⟩, ⟨a3, h3⟩, ⟨a4, h4⟩, ⟨a5, h5⟩⟩ := hx hsp
      rcases hbad with ⟨v, w, hv, hw⟩ | ⟨v, w, hv, hw⟩ | ⟨v, hv, hw⟩ | ⟨v, hv, hw⟩ |
        ⟨v, hv, hw⟩
      · simp [hv, hw] at h1
      · simp [hv, hw] at h2
      · simp [hv, stod_of_noFloat hw] at h3
      · simp [hv, stod_of_noFloat hw] at h4
      · simp [hv, stof_of_noFloat hw] at h5

/-- Witness of C6: the explicit view with `width=abc` and the tile request with
`tilt=abc` are answered 400. -/
theorem C6_bad_number_witness :
    (∃ st' what hb, work stubEnv enoughFuel freshWorker reqWidthAbc =
        some (st', ⟨false, [⟨400, "Bad Request", what, [CORS]⟩], hb⟩) ∧
      Call.render ∉ since freshWorker st') ∧
    (∃ st' what hb, work stubEnv enoughFuel freshWorker reqTiltAbc =
        some (st', ⟨false, [⟨400, "Bad Request", what, [CORS]⟩], hb⟩) ∧
      Call.render ∉ since freshWorker st') :=
  ⟨C6_bad_number stubEnv enoughFuel freshWorker reqWidthAbc advancing_stubEnv (le_refl _)
      (by decide)
      (Or.inr (Or.inr (Or.inr ⟨by decide, Or.inl ⟨"abc", "stoi", by decide, rfl⟩⟩))),
    C6_bad_number stubEnv enoughFuel freshWorker reqTiltAbc advancing_stubEnv (le_refl _)
      (by decide) (Or.inr (Or.inl ⟨"abc", by decide, rfl⟩))⟩

/-- The request with density 1.5 and width 101 handled twice in a row with the
test double: both statuses and the calls of the second handling. -/
theorem stub_fractional_twice :
    ((work stubEnv 1 freshWorker reqFractional).bind fun r1 =>
      (work stubEnv 1 r1.1 reqFractional).map fun r2 =>
        (r1.2.codes, r1.1.m_width, r2.2.codes, since r1.1 r2.1)) =
      some ([200], 151, [200],
        [Call.resize 302 300, Call.update 10, Call.glResize 151 150, Call.update 10,
          Call.render]) := by
  decide!

/-- The guard of `setSize` fails on its own result when `density · width` is not
an integer: whatever the state and the collaborators, `setSize(101, 100, 1.5)`
called twice in a row resizes the engine the second time too. -/
theorem setSize_fractional_again {E : Env} {fuel : ℕ} {st st1 st2 : Paparazzi}
    (h1 : setSize E fuel st 101 100 (3 / 2) = some st1)
    (h2 : setSize E fuel st1 101 100 (3 / 2) = some st2) :
    st1.m_width = 151 ∧
      withoutPumps (since st1 st2) = [Call.resize 302 300, Call.glResize 151 150] := by
  have c1 := (setSize_spec true h1).1
  have e1 : toInt (((101 : ℤ) : ℚ) * (3 / 2)) = 151 := by decide!
  have e2 : toInt (((100 : ℤ) : ℚ) * (3 / 2)) = 150 := by decide!
  have e3 : toInt (((151 : ℤ) : ℚ) * AA_SCALE) = 302 := by decide!
  have e4 : toInt (((150 : ℤ) : ℚ) * AA_SCALE) = 300 := by decide!
  have w1 : st1.m_width = 151 := by
    have := congrArg Paparazzi.m_width c1
    rw [← e1]
    exact this
  have p1 : st1.pixelScale = 3 / 2 * AA_SCALE := by
    have := congrArg Paparazzi.pixelScale c1
    simpa [core] using this
  have t2 := setSize_trace h2
  rw [w1, p1, if_neg (by norm_num), if_pos rfl, e1, e2, e3, e4] at t2
  exact ⟨w1, by simpa using t2.since_eq⟩

/-- C1, failing input: the explicit request with `density=1.5` and `width=101`
is answered 200 and leaves the width 151, the truncation of 151.5; the
identical request handled right after it is answered 200 as well and resizes
the engine again, because `setSize` compares 151.5 with the stored 151. -/
theorem C1_identical_request_resizes_again :
    ∃ st1 res1 st2 res2, work stubEnv 1 freshWorker reqFractional = some (st1, res1) ∧
      res1.codes = [200] ∧ st1.m_width = 151 ∧
      work stubEnv 1 st1 reqFractional = some (st2, res2) ∧ res2.codes = [200] ∧
      since st1 st2 = [Call.resize 302 300, Call.update 10, Call.glResize 151 150,
        Call.update 10, Call.render] ∧
      mutations (since st1 st2) = [Call.resize 302 300] := by
  have h := stub_fractional_twice
  cases h1 : work stubEnv 1 freshWorker reqFractional with
  | none => rw [h1] at h; simp at h
  | some r1 =>
    rw [h1] at h
    simp only [Option.some_bind] at h
    obtain ⟨r2, h2, hf⟩ := exists_of_map_eq_some h
    simp only [Prod.mk.injEq] at hf
    refine ⟨r1.1, r1.2, r2.1, r2.2, rfl, hf.1, hf.2.1, h2, hf.2.2.1, hf.2.2.2, ?_⟩
    rw [hf.2.2.2]
    rfl

theorem c_str_of_no_zero (body : String) (h : Char.ofNat 0 ∉ body.toList) :
    c_str body = body := by
  unfold c_str
  have : body.toList.takeWhile (fun c => c ≠ Char.ofNat 0) = body.toList := by
    rw [List.takeWhile_eq_self_iff]
    intro c hc
    simp only [ne_eq, decide_not, Bool.not_eq_true', decide_eq_false_iff_not]
    intro hc0
    exact h (hc0 ▸ hc)
  rw [this]
  rfl

/-- C8, failing input: for the inline body made of the bytes `a`, `0`, `b`
that is not the current scene, `setSceneContent` sets the scene id to the
digest of the whole body and writes to `cache/<digest>.yaml` only the byte `a`,
what `c_str()` yields up to the zero byte: the file does not hold the body. -/
theorem C8_zero_byte_truncates_file (E : Env) (fuel : ℕ) (st st' : Paparazzi)
    (hne : E.md5 nulBody ≠ st.m_scene)
    (h : setSceneContent E fuel st nulBody = some st') :
    st'.m_scene = E.md5 nulBody ∧
      st'.files = ("cache/" ++ E.md5 nulBody ++ ".yaml", "a") :: st.files ∧
      "a" ≠ nulBody := by
  refine ⟨(setSceneContent_spec true h).1, ?_, by decide⟩
  unfold setSceneContent at h
  simp only at h
  rw [if_neg hne] at h
  have := congrArg Paparazzi.files (update_core h)
  have hc : c_str nulBody = "a" := by decide
  simpa [core, call, hc] using this

/-- Witness of C8 with the test double on a fresh worker. -/
theorem C8_zero_byte_truncates_file_witness :
    ∃ st', setSceneContent stubEnv enoughFuel freshWorker nulBody = some st' ∧
      st'.m_scene = stubEnv.md5 nulBody ∧
      st'.files = ("cache/" ++ stubEnv.md5 nulBody ++ ".yaml", "a") :: freshWorker.files ∧
      "a" ≠ nulBody := by
  obtain ⟨st', h⟩ := setSceneContent_total advancing_stubEnv (le_refl _) freshWorker nulBody
  exact ⟨st', h,
    C8_zero_byte_truncates_file stubEnv enoughFuel freshWorker st' (by decide) h⟩

end Tangram
